import Mathlib

/-!
Verification development for the "apex" compiler front end.

The C++ sources under src/apexc (lexer, parser, name resolver, command-line
driver) are shallowly embedded below: machine strings become `List Char` /
`String`, pointers become `Option`, the mutable lexer/parser/analyzer objects
become explicit state records, and `std::vector` members become lists.  The
parser's recursive-descent functions are given an explicit fuel argument
because the C++ loops are not known to terminate on all inputs (see the
theorems about `parse_module`); every other function is defined totally, by
well-founded recursion on the number of unread source bytes.

Reading of C++ null-pointer dereference: the result constructor
`ParseRes.crash` marks the undefined behaviour that `Parser::parse_statement`
exhibits when `parse_expression` returns `nullptr` (it reads
`expr->location` through the null pointer).
-/

set_option maxHeartbeats 2000000
set_option maxRecDepth 8192

namespace Apex

/-- The C++ SourceLocation (Token.h): file name, 1-indexed line and column,
0-indexed byte offset. -/
structure SourceLocation where
  filename : String
  line : Nat
  column : Nat
  offset : Nat
deriving DecidableEq, Repr

/-- TokenType from Token.h, all kinds, same order. -/
inductive TokenType where
  | kwFn | kwLet | kwMut | kwConst | kwStatic
  | kwIf | kwElse | kwMatch | kwFor | kwWhile | kwLoop
  | kwBreak | kwContinue | kwReturn
  | kwStruct | kwEnum | kwImpl | kwTrait | kwType
  | kwPub | kwMod | kwModule | kwImport | kwExtern
  | kwUnsafe | kwDefer
  | kwAs | kwIn
  | kwTrue | kwFalse | kwNull
  | kwVoid
  | kwI8 | kwI16 | kwI32 | kwI64 | kwI128 | kwIsize
  | kwU8 | kwU16 | kwU32 | kwU64 | kwU128 | kwUsize
  | kwF32 | kwF64
  | kwBool | kwChar | kwByte
  | identifier
  | integerLiteral
  | floatLiteral
  | stringLiteral
  | charLiteral
  | plus | minus | star | slash | percent
  | eq | ne | lt | le | gt | ge
  | andAnd | orOr | notOp
  | amp | pipe | caret | tilde | shl | shr
  | assign | plusEq | minusEq | starEq | slashEq | percentEq
  | ampEq | pipeEq | caretEq | shlEq | shrEq
  | dotDot | dotDotEq
  | arrow | fatArrow | colonColon | dot | question | atSign
  | lparen | rparen
  | lbrace | rbrace
  | lbracket | rbracket
  | comma | semicolon | colon
  | hash
  | endOfFile
  | errorTok
deriving DecidableEq, Repr

/-- The decoded-literal variant. Token.h stores
`variant<int64_t, uint64_t, double, string>` and AST.h additionally allows
`bool`; one Lean type covers both. The `double` payload is modelled as `Rat`
(the program only ever stores the placeholder 0.0, so no floating-point
behaviour is lost). -/
inductive LitValue where
  | intV (i : Int)
  | uintV (u : Nat)
  | floatV (q : Rat)
  | strV (s : String)
  | boolV (b : Bool)
deriving DecidableEq, Repr

/-- Token from Token.h: kind, lexeme, location, optional decoded value. -/
structure Token where
  type : TokenType
  lexeme : String
  location : SourceLocation
  value : Option LitValue := none
deriving DecidableEq, Repr

/-- The keyword table of Token.cpp (all 49 entries). -/
def keywords : List (String × TokenType) :=
  [("fn", .kwFn), ("let", .kwLet), ("mut", .kwMut), ("const", .kwConst),
   ("static", .kwStatic), ("if", .kwIf), ("else", .kwElse), ("match", .kwMatch),
   ("for", .kwFor), ("while", .kwWhile), ("loop", .kwLoop), ("break", .kwBreak),
   ("continue", .kwContinue), ("return", .kwReturn), ("struct", .kwStruct),
   ("enum", .kwEnum), ("impl", .kwImpl), ("trait", .kwTrait), ("type", .kwType),
   ("pub", .kwPub), ("mod", .kwMod), ("module", .kwModule), ("import", .kwImport),
   ("extern", .kwExtern), ("unsafe", .kwUnsafe), ("defer", .kwDefer),
   ("as", .kwAs), ("in", .kwIn), ("true", .kwTrue), ("false", .kwFalse),
   ("null", .kwNull), ("void", .kwVoid),
   ("i8", .kwI8), ("i16", .kwI16), ("i32", .kwI32), ("i64", .kwI64),
   ("i128", .kwI128), ("isize", .kwIsize),
   ("u8", .kwU8), ("u16", .kwU16), ("u32", .kwU32), ("u64", .kwU64),
   ("u128", .kwU128), ("usize", .kwUsize),
   ("f32", .kwF32), ("f64", .kwF64),
   ("bool", .kwBool), ("char", .kwChar), ("byte", .kwByte)]

/-- Token.cpp is_keyword. -/
def is_keyword (text : String) : Bool :=
  (keywords.lookup text).isSome

/-- Token.cpp keyword_to_token_type (IDENTIFIER when not found). -/
def keyword_to_token_type (text : String) : TokenType :=
  (keywords.lookup text).getD .identifier

/-! ## Lexer (Lexer.cpp)

The lexer object's mutable fields become `LexState`; the immutable
`source_` buffer and `filename_` are fixed parameters. -/

/-- Mutable state of the C++ Lexer: current_, line_, column_, line_start_ and
the accumulated error list. -/
structure LexState where
  pos : Nat
  line : Nat
  column : Nat
  lineStart : Nat
  errors : List String
deriving DecidableEq, Repr

/-- The C++ char '\0' returned by peek past the end. -/
def nulChar : Char := Char.ofNat 0

/-- The lexer's initial state (constructor of Lexer.cpp). -/
def initLexState : LexState := ⟨0, 1, 1, 0, []⟩

/-- substr(start, len) on the source buffer. -/
def substrOf (src : List Char) (start len : Nat) : String :=
  String.mk ((src.drop start).take len)

section Lexer

variable (src : List Char) (fname : String)

/-- Lexer::current_location. -/
def current_location (s : LexState) : SourceLocation :=
  ⟨fname, s.line, s.column, s.pos⟩

/-- Lexer::peek ('\0' at or past the end, source_[current_] otherwise). -/
def peek (s : LexState) : Char :=
  src.getD s.pos nulChar

/-- Lexer::peek_next. -/
def peek_next (s : LexState) : Char :=
  src.getD (s.pos + 1) nulChar

/-- Lexer::advance: consume one byte, maintaining line/column/line_start. -/
def advance (s : LexState) : Char × LexState :=
  if src.length ≤ s.pos then (nulChar, s)
  else
    let c := src.getD s.pos nulChar
    if c = '\n' then
      (c, { s with pos := s.pos + 1, line := s.line + 1, column := 1,
                   lineStart := s.pos + 1 })
    else
      (c, { s with pos := s.pos + 1, column := s.column + 1 })

/-- Lexer::match(expected). -/
def match_ch (expected : Char) (s : LexState) : Bool × LexState :=
  if src.length ≤ s.pos ∨ ¬ src.getD s.pos nulChar = expected then (false, s)
  else (true, (advance src s).2)

/-- Lexer::add_error: format "file:line:col: message" and append. -/
def add_error (msg : String) (s : LexState) : LexState :=
  { s with errors := s.errors ++
      [fname ++ ":" ++ toString s.line ++ ":" ++ toString s.column ++ ": " ++ msg] }


/-- Lexer::make_token: the token is stamped with the CURRENT location, i.e.
the position after its lexeme has been consumed. -/
def make_token (ty : TokenType) (lexeme : String) (s : LexState) : Token :=
  { type := ty, lexeme := lexeme, location := current_location fname s }

/-- Lexer::make_error_token. -/
def make_error_token (msg : String) (s : LexState) : Token × LexState :=
  let s' := add_error fname msg s
  ({ type := .errorTok, lexeme := msg, location := current_location fname s' }, s')

end Lexer

/-- Lexer::is_alpha. -/
def is_alpha (c : Char) : Bool :=
  decide (('a' ≤ c ∧ c ≤ 'z') ∨ ('A' ≤ c ∧ c ≤ 'Z') ∨ c = '_')

/-- Lexer::is_digit. -/
def is_digit (c : Char) : Bool :=
  decide ('0' ≤ c ∧ c ≤ '9')

/-- Lexer::is_alphanum. -/
def is_alphanum (c : Char) : Bool :=
  is_alpha c || is_digit c

/-- std::isxdigit (C locale). -/
def is_xdigit (c : Char) : Bool :=
  is_digit c || decide (('a' ≤ c ∧ c ≤ 'f') ∨ ('A' ≤ c ∧ c ≤ 'F'))

/-- The binary-digit test `peek() == '0' || peek() == '1'` of scan_number. -/
def is_bindigit (c : Char) : Bool :=
  decide (c = '0' ∨ c = '1')

/-- The octal-digit test `peek() >= '0' && peek() <= '7'` of scan_number. -/
def is_octdigit (c : Char) : Bool :=
  decide ('0' ≤ c ∧ c ≤ '7')

section LexerLoops

variable (src : List Char) (fname : String)

/-- A `while (p(peek())) advance();` loop.  The C++ loop terminates because
every predicate passed for `p` rejects NUL (`p '\0' = false`): at or past the
end of the buffer `peek` returns '\0' and the guard fails.  The Lean recursion
runs on an explicit iteration budget so that the definition is structural;
every call site passes `src.length + 1`, which strictly exceeds the at most
`src.length - s.pos` iterations the guard permits (each iteration consumes one
byte of the buffer), so the budget is never exhausted and the function
computes exactly the C++ loop. -/
def advance_while (p : Char → Bool) : Nat → LexState → LexState
  | 0, s => s
  | fuel + 1, s =>
    if p (peek src s) = true then advance_while p fuel (advance src s).2 else s

/-- Lexer::skip_line_comment
(`while (peek() != '\n' && !is_at_end()) advance();`).  Iteration budget as in
`advance_while`: callers pass `src.length + 1`, which the in-bounds guard
keeps from ever being exhausted. -/
def skip_line_comment : Nat → LexState → LexState
  | 0, s => s
  | fuel + 1, s =>
    if ¬ peek src s = '\n' ∧ s.pos < src.length then
      skip_line_comment fuel (advance src s).2
    else s

/-- The depth-counting loop of Lexer::skip_block_comment; returns the final
depth with the state.  Every iteration advances by at least one byte under
the in-bounds guard, so the `src.length + 1` budget passed by
`skip_block_comment` is never exhausted. -/
def skip_block_comment_loop : Nat → Nat → LexState → Nat × LexState
  | 0, depth, s => (depth, s)
  | fuel + 1, depth, s =>
    if 0 < depth ∧ s.pos < src.length then
      if peek src s = '/' ∧ peek_next src s = '*' then
        skip_block_comment_loop fuel (depth + 1) (advance src (advance src s).2).2
      else if peek src s = '*' ∧ peek_next src s = '/' then
        skip_block_comment_loop fuel (depth - 1) (advance src (advance src s).2).2
      else
        skip_block_comment_loop fuel depth (advance src s).2
    else (depth, s)

/-- Lexer::skip_block_comment: consume the opening "/" "*", run the nesting
loop from depth 1, report an unterminated comment when depth stayed
positive. -/
def skip_block_comment (s : LexState) : LexState :=
  let s2 := (advance src (advance src s).2).2
  let r := skip_block_comment_loop src (src.length + 1) 1 s2
  if 0 < r.1 then add_error fname "Unterminated block comment" r.2 else r.2

/-- Lexer::skip_whitespace: ASCII whitespace, line comments, nesting block
comments.  Each iteration strictly advances the position (a line comment
consumes at least its first '/', which is not '\n'; a block comment consumes
its opening two bytes) while the guard keeps the position in bounds, so the
`src.length + 1` budget passed by `next_token` is never exhausted. -/
def skip_whitespace : Nat → LexState → LexState
  | 0, s => s
  | fuel + 1, s =>
    if s.pos < src.length then
      if peek src s = ' ' ∨ peek src s = '\t' ∨ peek src s = '\r' ∨ peek src s = '\n' then
        skip_whitespace fuel (advance src s).2
      else if peek src s = '/' ∧ peek_next src s = '/' then
        skip_whitespace fuel (skip_line_comment src (src.length + 1) s)
      else if peek src s = '/' ∧ peek_next src s = '*' then
        skip_whitespace fuel (skip_block_comment src fname s)
      else s
    else s

end LexerLoops

section LexerScan

variable (src : List Char) (fname : String)

/-- Lexer::scan_identifier: called with the first character already consumed
(start = current_ - 1); keywords are re-classified via the keyword table. -/
def scan_identifier (s : LexState) : Token × LexState :=
  let start := s.pos - 1
  let s1 := advance_while src is_alphanum (src.length + 1) s
  let text := substrOf src start (s1.pos - start)
  if is_keyword text then
    (make_token fname (keyword_to_token_type text) text s1, s1)
  else
    (make_token fname .identifier text s1, s1)

/-- The base-prefix step of Lexer::scan_number (hex / binary / octal digits
after a leading 0). -/
def scan_number_base (start : Nat) (s : LexState) : LexState :=
  if src.getD start nulChar = '0' ∧ s.pos < src.length then
    if peek src s = 'x' ∨ peek src s = 'X' then
      advance_while src is_xdigit (src.length + 1) (advance src s).2
    else if peek src s = 'b' ∨ peek src s = 'B' then
      advance_while src is_bindigit (src.length + 1) (advance src s).2
    else if peek src s = 'o' ∨ peek src s = 'O' then
      advance_while src is_octdigit (src.length + 1) (advance src s).2
    else s
  else s

/-- The fractional-part step of Lexer::scan_number: a dot followed by at
least one digit forces float kind. -/
def scan_number_frac (s : LexState) : Bool × LexState :=
  if peek src s = '.' ∧ is_digit (peek_next src s) = true then
    (true, advance_while src is_digit (src.length + 1) (advance src s).2)
  else (false, s)

/-- The exponent step of Lexer::scan_number: e/E, optional sign, digits;
forces float kind. -/
def scan_number_exp (r : Bool × LexState) : Bool × LexState :=
  if peek src r.2 = 'e' ∨ peek src r.2 = 'E' then
    if peek src (advance src r.2).2 = '+' ∨ peek src (advance src r.2).2 = '-' then
      (true, advance_while src is_digit (src.length + 1) (advance src (advance src r.2).2).2)
    else
      (true, advance_while src is_digit (src.length + 1) (advance src r.2).2)
  else r

/-- The type-suffix step of Lexer::scan_number (e.g. `_i32`, `f64`), consumed
into the lexeme. -/
def scan_number_suffix (s : LexState) : LexState :=
  if is_alpha (peek src s) = true then
    advance_while src is_alphanum (src.length + 1) s
  else s

/-- Lexer::scan_number: optional base prefix on a leading 0, decimal digits,
fractional part, exponent, optional alphanumeric type suffix.  No decoded
value is ever stored in the token. -/
def scan_number (s : LexState) : Token × LexState :=
  let start := s.pos - 1
  let s1 := scan_number_base src start s
  let s2 := advance_while src is_digit (src.length + 1) s1
  let r3 := scan_number_frac src s2
  let r4 := scan_number_exp src r3
  let s5 := scan_number_suffix src r4.2
  let lexeme := substrOf src start (s5.pos - start)
  let ty := if r4.1 then TokenType.floatLiteral else TokenType.integerLiteral
  (make_token fname ty lexeme s5, s5)

/-- The character-accumulating loop of Lexer::scan_string.  Written without
local abbreviations; the escape dispatch mirrors the switch of Lexer.cpp.
Iteration budget as in `advance_while`: `scan_string` passes
`src.length + 1`, which the in-bounds guard keeps from ever being
exhausted. -/
def scan_string_loop : Nat → LexState → String → LexState × String
  | 0, s, value => (s, value)
  | fuel + 1, s, value =>
    if ¬ peek src s = '"' ∧ s.pos < src.length then
      if peek src s = '\\' then
        if src.length ≤ (advance src s).2.pos then ((advance src s).2, value)
        else
          if (advance src (advance src s).2).1 = 'n' then
            scan_string_loop fuel (advance src (advance src s).2).2 (value.push '\n')
          else if (advance src (advance src s).2).1 = 'r' then
            scan_string_loop fuel (advance src (advance src s).2).2 (value.push '\r')
          else if (advance src (advance src s).2).1 = 't' then
            scan_string_loop fuel (advance src (advance src s).2).2 (value.push '\t')
          else if (advance src (advance src s).2).1 = '\\' then
            scan_string_loop fuel (advance src (advance src s).2).2 (value.push '\\')
          else if (advance src (advance src s).2).1 = '"' then
            scan_string_loop fuel (advance src (advance src s).2).2 (value.push '"')
          else if (advance src (advance src s).2).1 = '0' then
            scan_string_loop fuel (advance src (advance src s).2).2 (value.push nulChar)
          else
            scan_string_loop fuel
              (add_error fname
                ("Invalid escape sequence: \\" ++ String.mk [(advance src (advance src s).2).1])
                (advance src (advance src s).2).2)
              (value.push (advance src (advance src s).2).1)
      else
        scan_string_loop fuel (advance src s).2 (value.push (advance src s).1)
    else (s, value)

/-- Lexer::scan_string (opening quote already consumed). -/
def scan_string (s : LexState) : Token × LexState :=
  let start := s.pos - 1
  let r := scan_string_loop src fname (src.length + 1) s ""
  if src.length ≤ r.1.pos then
    make_error_token fname "Unterminated string literal" r.1
  else
    let s2 := (advance src r.1).2
    let lexeme := substrOf src start (s2.pos - start)
    let tok := make_token fname .stringLiteral lexeme s2
    ({ tok with value := some (.strV r.2) }, s2)

/-- The value computation of Lexer::scan_char: one escape or one plain
character; `none` models the unterminated-after-backslash early return. -/
def scan_char_value (s : LexState) : Option Char × LexState :=
  if peek src s = '\\' then
    if src.length ≤ (advance src s).2.pos then (none, (advance src s).2)
    else
      if (advance src (advance src s).2).1 = 'n' then
        (some '\n', (advance src (advance src s).2).2)
      else if (advance src (advance src s).2).1 = 'r' then
        (some '\r', (advance src (advance src s).2).2)
      else if (advance src (advance src s).2).1 = 't' then
        (some '\t', (advance src (advance src s).2).2)
      else if (advance src (advance src s).2).1 = '\\' then
        (some '\\', (advance src (advance src s).2).2)
      else if (advance src (advance src s).2).1 = '\'' then
        (some '\'', (advance src (advance src s).2).2)
      else if (advance src (advance src s).2).1 = '0' then
        (some nulChar, (advance src (advance src s).2).2)
      else
        (some (advance src (advance src s).2).1,
         add_error fname
           ("Invalid escape sequence: \\" ++ String.mk [(advance src (advance src s).2).1])
           (advance src (advance src s).2).2)
  else
    (some (advance src s).1, (advance src s).2)

/-- Lexer::scan_char (opening quote already consumed). -/
def scan_char (s : LexState) : Token × LexState :=
  let start := s.pos - 1
  if src.length ≤ s.pos then
    make_error_token fname "Unterminated character literal" s
  else
    match scan_char_value src fname s with
    | (none, s1) => make_error_token fname "Unterminated character literal" s1
    | (some v, s1) =>
      if ¬ peek src s1 = '\'' then
        make_error_token fname "Character literal must contain exactly one character" s1
      else
        let s2 := (advance src s1).2
        let lexeme := substrOf src start (s2.pos - start)
        let tok := make_token fname .charLiteral lexeme s2
        ({ tok with value := some (.strV (String.mk [v])) }, s2)

end LexerScan

section NextToken

variable (src : List Char) (fname : String)

/-- The operator/punctuation switch of Lexer::next_token, one arm per C++
case label; `c` is the consumed character, `s1` the state after it. -/
def punct_token (c : Char) (s1 : LexState) : Token × LexState :=
  match c with
  | '(' => (make_token fname .lparen "(" s1, s1)
  | ')' => (make_token fname .rparen ")" s1, s1)
  | '{' => (make_token fname .lbrace "\x7b" s1, s1)
  | '}' => (make_token fname .rbrace "\x7d" s1, s1)
  | '[' => (make_token fname .lbracket "[" s1, s1)
  | ']' => (make_token fname .rbracket "]" s1, s1)
  | ',' => (make_token fname .comma "," s1, s1)
  | ';' => (make_token fname .semicolon ";" s1, s1)
  | '~' => (make_token fname .tilde "~" s1, s1)
  | '?' => (make_token fname .question "?" s1, s1)
  | '@' => (make_token fname .atSign "@" s1, s1)
  | '#' => (make_token fname .hash "#" s1, s1)
  | ':' =>
    if (match_ch src ':' s1).1 then
      (make_token fname .colonColon "::" (match_ch src ':' s1).2, (match_ch src ':' s1).2)
    else
      (make_token fname .colon ":" (match_ch src ':' s1).2, (match_ch src ':' s1).2)
  | '.' =>
    if (match_ch src '.' s1).1 then
      if (match_ch src '=' (match_ch src '.' s1).2).1 then
        (make_token fname .dotDotEq "..=" (match_ch src '=' (match_ch src '.' s1).2).2,
         (match_ch src '=' (match_ch src '.' s1).2).2)
      else
        (make_token fname .dotDot ".." (match_ch src '=' (match_ch src '.' s1).2).2,
         (match_ch src '=' (match_ch src '.' s1).2).2)
    else
      (make_token fname .dot "." (match_ch src '.' s1).2, (match_ch src '.' s1).2)
  | '+' =>
    if (match_ch src '=' s1).1 then
      (make_token fname .plusEq "+=" (match_ch src '=' s1).2, (match_ch src '=' s1).2)
    else
      (make_token fname .plus "+" (match_ch src '=' s1).2, (match_ch src '=' s1).2)
  | '-' =>
    if (match_ch src '=' s1).1 then
      (make_token fname .minusEq "-=" (match_ch src '=' s1).2, (match_ch src '=' s1).2)
    else if (match_ch src '>' (match_ch src '=' s1).2).1 then
      (make_token fname .arrow "->" (match_ch src '>' (match_ch src '=' s1).2).2,
       (match_ch src '>' (match_ch src '=' s1).2).2)
    else
      (make_token fname .minus "-" (match_ch src '>' (match_ch src '=' s1).2).2,
       (match_ch src '>' (match_ch src '=' s1).2).2)
  | '*' =>
    if (match_ch src '=' s1).1 then
      (make_token fname .starEq "*=" (match_ch src '=' s1).2, (match_ch src '=' s1).2)
    else
      (make_token fname .star "*" (match_ch src '=' s1).2, (match_ch src '=' s1).2)
  | '/' =>
    if (match_ch src '=' s1).1 then
      (make_token fname .slashEq "/=" (match_ch src '=' s1).2, (match_ch src '=' s1).2)
    else
      (make_token fname .slash "/" (match_ch src '=' s1).2, (match_ch src '=' s1).2)
  | '%' =>
    if (match_ch src '=' s1).1 then
      (make_token fname .percentEq "%=" (match_ch src '=' s1).2, (match_ch src '=' s1).2)
    else
      (make_token fname .percent "%" (match_ch src '=' s1).2, (match_ch src '=' s1).2)
  | '&' =>
    if (match_ch src '&' s1).1 then
      (make_token fname .andAnd "&&" (match_ch src '&' s1).2, (match_ch src '&' s1).2)
    else if (match_ch src '=' (match_ch src '&' s1).2).1 then
      (make_token fname .ampEq "&=" (match_ch src '=' (match_ch src '&' s1).2).2,
       (match_ch src '=' (match_ch src '&' s1).2).2)
    else
      (make_token fname .amp "&" (match_ch src '=' (match_ch src '&' s1).2).2,
       (match_ch src '=' (match_ch src '&' s1).2).2)
  | '|' =>
    if (match_ch src '|' s1).1 then
      (make_token fname .orOr "||" (match_ch src '|' s1).2, (match_ch src '|' s1).2)
    else if (match_ch src '=' (match_ch src '|' s1).2).1 then
      (make_token fname .pipeEq "|=" (match_ch src '=' (match_ch src '|' s1).2).2,
       (match_ch src '=' (match_ch src '|' s1).2).2)
    else
      (make_token fname .pipe "|" (match_ch src '=' (match_ch src '|' s1).2).2,
       (match_ch src '=' (match_ch src '|' s1).2).2)
  | '^' =>
    if (match_ch src '=' s1).1 then
      (make_token fname .caretEq "^=" (match_ch src '=' s1).2, (match_ch src '=' s1).2)
    else
      (make_token fname .caret "^" (match_ch src '=' s1).2, (match_ch src '=' s1).2)
  | '!' =>
    if (match_ch src '=' s1).1 then
      (make_token fname .ne "!=" (match_ch src '=' s1).2, (match_ch src '=' s1).2)
    else
      (make_token fname .notOp "!" (match_ch src '=' s1).2, (match_ch src '=' s1).2)
  | '=' =>
    if (match_ch src '=' s1).1 then
      (make_token fname .eq "==" (match_ch src '=' s1).2, (match_ch src '=' s1).2)
    else if (match_ch src '>' (match_ch src '=' s1).2).1 then
      (make_token fname .fatArrow "=>" (match_ch src '>' (match_ch src '=' s1).2).2,
       (match_ch src '>' (match_ch src '=' s1).2).2)
    else
      (make_token fname .assign "=" (match_ch src '>' (match_ch src '=' s1).2).2,
       (match_ch src '>' (match_ch src '=' s1).2).2)
  | '<' =>
    if (match_ch src '<' s1).1 then
      if (match_ch src '=' (match_ch src '<' s1).2).1 then
        (make_token fname .shlEq "<<=" (match_ch src '=' (match_ch src '<' s1).2).2,
         (match_ch src '=' (match_ch src '<' s1).2).2)
      else
        (make_token fname .shl "<<" (match_ch src '=' (match_ch src '<' s1).2).2,
         (match_ch src '=' (match_ch src '<' s1).2).2)
    else if (match_ch src '=' (match_ch src '<' s1).2).1 then
      (make_token fname .le "<=" (match_ch src '=' (match_ch src '<' s1).2).2,
       (match_ch src '=' (match_ch src '<' s1).2).2)
    else
      (make_token fname .lt "<" (match_ch src '=' (match_ch src '<' s1).2).2,
       (match_ch src '=' (match_ch src '<' s1).2).2)
  | '>' =>
    if (match_ch src '>' s1).1 then
      if (match_ch src '=' (match_ch src '>' s1).2).1 then
        (make_token fname .shrEq ">>=" (match_ch src '=' (match_ch src '>' s1).2).2,
         (match_ch src '=' (match_ch src '>' s1).2).2)
      else
        (make_token fname .shr ">>" (match_ch src '=' (match_ch src '>' s1).2).2,
         (match_ch src '=' (match_ch src '>' s1).2).2)
    else if (match_ch src '=' (match_ch src '>' s1).2).1 then
      (make_token fname .ge ">=" (match_ch src '=' (match_ch src '>' s1).2).2,
       (match_ch src '=' (match_ch src '>' s1).2).2)
    else
      (make_token fname .gt ">" (match_ch src '=' (match_ch src '>' s1).2).2,
       (match_ch src '=' (match_ch src '>' s1).2).2)
  | '"' => scan_string src fname s1
  | '\'' => scan_char src fname s1
  | _ => make_error_token fname ("Unexpected character: " ++ String.mk [c]) s1

/-- Lexer::next_token: skip whitespace/comments, emit EOF at the end,
dispatch on the first character (identifiers, numbers, then the
operator/punctuation switch). -/
def next_token (s : LexState) : Token × LexState :=
  if src.length ≤ (skip_whitespace src fname (src.length + 1) s).pos then
    (make_token fname .endOfFile "" (skip_whitespace src fname (src.length + 1) s),
     skip_whitespace src fname (src.length + 1) s)
  else
    if is_alpha (advance src (skip_whitespace src fname (src.length + 1) s)).1 = true then
      scan_identifier src fname (advance src (skip_whitespace src fname (src.length + 1) s)).2
    else if is_digit (advance src (skip_whitespace src fname (src.length + 1) s)).1 = true then
      scan_number src fname (advance src (skip_whitespace src fname (src.length + 1) s)).2
    else
      punct_token src fname (advance src (skip_whitespace src fname (src.length + 1) s)).1
        (advance src (skip_whitespace src fname (src.length + 1) s)).2

/-- Lexer::tokenize_all: collect tokens until the first END_OF_FILE or ERROR
token, which is included and ends the stream.  The iteration budget
`src.length + 1` passed by `lex_source` is never exhausted: an iteration that
does not end the stream produced a non-EOF token, which strictly advances the
position inside the buffer (theorem `next_token_progress` below), and that can
happen at most `src.length` times. -/
def tokenize_all : Nat → LexState → List Token × LexState
  | 0, s => ([], s)
  | fuel + 1, s =>
    if (next_token src fname s).1.type = .endOfFile ∨
       (next_token src fname s).1.type = .errorTok then
      ([(next_token src fname s).1], (next_token src fname s).2)
    else
      ((next_token src fname s).1 ::
         (tokenize_all fuel (next_token src fname s).2).1,
       (tokenize_all fuel (next_token src fname s).2).2)

end NextToken

/-- Run the lexer over a whole source string (Lexer construction plus
tokenize_all): the token stream and the final state (error list). -/
def lex_source (source : String) (fname : String) : List Token × LexState :=
  tokenize_all source.data fname (source.data.length + 1) initLexState

/-! ## AST (AST.h)

Tagged variants become inductives; `unique_ptr` fields become `Option`,
vectors become lists.  Union-style fields that a given kind never uses are
kept only where some code reads them. -/

/-- ast::BinaryOp.  `uninit` models the indeterminate value that
Parser::parse_assignment leaves in `binary_op` when the operator token is
one of `&= |= ^= <<= >>=` (its switch has no case for them). -/
inductive BinaryOp where
  | add | sub | mul | div | mod
  | eqOp | neOp | ltOp | leOp | gtOp | geOp
  | andOp | orOp
  | bitAnd | bitOr | bitXor | shlOp | shrOp
  | assign | addAssign | subAssign | mulAssign | divAssign | modAssign
  | andAssign | orAssign | xorAssign | shlAssign | shrAssign
  | uninit
deriving DecidableEq, Repr

/-- ast::UnaryOp. -/
inductive UnaryOp where
  | neg | notU | bitNot | deref | addrOf | addrOfMut
deriving DecidableEq, Repr

/-- ast::TypeKind / ast::Type.  The parser stores primitive keywords in
`Named` types with `primitive_name` set (path empty); explicit `Primitive`
nodes appear only for the synthesized `void` return type. -/
inductive AType where
  | primitive (primitiveName : Option String) (loc : SourceLocation)
  | pointer (isMutable : Bool) (pointee : Option AType) (loc : SourceLocation)
  | reference (isMutable : Bool) (pointee : Option AType) (loc : SourceLocation)
  | array (elem : Option AType) (size : Option Nat) (loc : SourceLocation)
  | slice (elem : Option AType) (loc : SourceLocation)
  | tupleT (elems : List (Option AType)) (loc : SourceLocation)
  | functionT (paramTypes : List (Option AType)) (returnType : Option AType)
      (loc : SourceLocation)
  | named (primitiveName : Option String) (pathSegments : List String)
      (loc : SourceLocation)
  | generic (loc : SourceLocation)
deriving Repr

/-- ast::PatternKind / ast::Pattern (payloads as the parser fills them;
Struct/Enum/Range/Or patterns are never produced by Parser.cpp). -/
inductive APattern where
  | wildcard (loc : SourceLocation)
  | identP (bindingName : Option String) (isMutable : Bool) (loc : SourceLocation)
  | literalP (value : Option LitValue) (loc : SourceLocation)
  | tupleP (pats : List (Option APattern)) (loc : SourceLocation)
  | structP (loc : SourceLocation)
  | enumP (loc : SourceLocation)
  | rangeP (loc : SourceLocation)
  | orP (loc : SourceLocation)
deriving Repr

/-- ast::FunctionParam. -/
structure FunctionParam where
  name : String
  type : Option AType
  location : SourceLocation
deriving Repr

/-- ast::Visibility. -/
inductive Visibility where
  | privateV | publicV
deriving DecidableEq, Repr

/-- ast::StructField. -/
structure StructField where
  visibility : Visibility
  name : String
  type : Option AType
  location : SourceLocation
deriving Repr

/-- ast::EnumVariant (tuple/struct payloads are never parsed). -/
structure EnumVariant where
  name : String
  location : SourceLocation
deriving Repr

/-- ast::GenericParam (trait bounds are never parsed). -/
structure GenericParam where
  name : String
  location : SourceLocation
deriving Repr

/-- ast::ItemKind. -/
inductive ItemKind where
  | function | structK | enumK | traitK | implK | typeAlias | moduleK
  | importK | externK
deriving DecidableEq, Repr

mutual

/-- ast::ExprKind / ast::Expr.  A match arm is
(pattern, body, location) — Parser.cpp never fills the guard. -/
inductive AExpr where
  | literal (value : Option LitValue) (loc : SourceLocation)
  | identE (name : Option String) (loc : SourceLocation)
  | binary (op : BinaryOp) (left : Option AExpr) (right : Option AExpr)
      (loc : SourceLocation)
  | unary (op : UnaryOp) (operand : Option AExpr) (loc : SourceLocation)
  | call (callee : Option AExpr) (args : List (Option AExpr)) (loc : SourceLocation)
  | indexE (indexed : Option AExpr) (index : Option AExpr) (loc : SourceLocation)
  | fieldAccess (object : Option AExpr) (fieldName : String) (loc : SourceLocation)
  | castE (castExpr : Option AExpr) (targetType : Option AType) (loc : SourceLocation)
  | structLiteral (path : List String)
      (fields : List (String × Option AExpr × SourceLocation)) (loc : SourceLocation)
  | arrayLiteral (elements : List (Option AExpr)) (repeatValue : Option AExpr)
      (repeatCount : Option AExpr) (loc : SourceLocation)
  | tupleE (elements : List (Option AExpr)) (loc : SourceLocation)
  | blockE (stmts : List AStmt) (tail : Option AExpr) (loc : SourceLocation)
  | ifE (condition : Option AExpr) (thenBranch : Option AExpr)
      (elseBranch : Option AExpr) (loc : SourceLocation)
  | matchE (scrutinee : Option AExpr)
      (arms : List (Option APattern × Option AExpr × SourceLocation))
      (loc : SourceLocation)
  | rangeE (rstart : Option AExpr) (rend : Option AExpr) (inclusive : Bool)
      (loc : SourceLocation)
  | returnE (value : Option AExpr) (loc : SourceLocation)
  | whileE (cond : Option AExpr) (body : Option AExpr) (loc : SourceLocation)
  | forE (pat : Option APattern) (iter : Option AExpr) (body : Option AExpr)
      (loc : SourceLocation)
  | breakE (loc : SourceLocation)
  | continueE (loc : SourceLocation)

/-- ast::StmtKind / ast::Stmt.  An expression statement holds a non-null
expression: parse_statement dereferences the pointer before constructing
the node (see `ParseRes.crash`). -/
inductive AStmt where
  | letS (pattern : Option APattern) (ty : Option AType)
      (initializer : Option AExpr) (loc : SourceLocation)
  | exprS (e : AExpr) (hasSemicolon : Bool) (loc : SourceLocation)
  | itemS (item : Option AItem) (loc : SourceLocation)

/-- ast::Item, one constructor carrying every field in declaration order:
kind, visibility, location, name, genericParams, params, returnType, body,
isExternFlag, isUnsafeFlag, structFields, enumVariants, traitItems,
implType, implTrait, implItems, aliasedType, moduleItems, importPath,
importAlias. -/
inductive AItem where
  | mk (kind : ItemKind) (visibility : Visibility) (loc : SourceLocation)
      (name : String)
      (genericParams : List GenericParam)
      (params : List FunctionParam)
      (returnType : Option AType)
      (body : Option AExpr)
      (isExternFlag : Bool)
      (isUnsafeFlag : Bool)
      (structFields : List StructField)
      (enumVariants : List EnumVariant)
      (traitItems : List AItem)
      (implType : Option AType)
      (implTrait : Option (List String))
      (implItems : List AItem)
      (aliasedType : Option AType)
      (moduleItems : List AItem)
      (importPath : List String)
      (importAlias : Option String)

end

/-- Field accessor: item kind. -/
def AItem.kind : AItem → ItemKind
  | .mk k _ _ _ _ _ _ _ _ _ _ _ _ _ _ _ _ _ _ _ => k

/-- Field accessor: item visibility. -/
def AItem.visibility : AItem → Visibility
  | .mk _ v _ _ _ _ _ _ _ _ _ _ _ _ _ _ _ _ _ _ => v

/-- Field accessor: item location. -/
def AItem.location : AItem → SourceLocation
  | .mk _ _ l _ _ _ _ _ _ _ _ _ _ _ _ _ _ _ _ _ => l

/-- Field accessor: item name. -/
def AItem.name : AItem → String
  | .mk _ _ _ n _ _ _ _ _ _ _ _ _ _ _ _ _ _ _ _ => n

/-- Field accessor: generic parameters. -/
def AItem.genericParams : AItem → List GenericParam
  | .mk _ _ _ _ gp _ _ _ _ _ _ _ _ _ _ _ _ _ _ _ => gp

/-- Field accessor: function parameters. -/
def AItem.params : AItem → List FunctionParam
  | .mk _ _ _ _ _ ps _ _ _ _ _ _ _ _ _ _ _ _ _ _ => ps

/-- Field accessor: function return type. -/
def AItem.returnType : AItem → Option AType
  | .mk _ _ _ _ _ _ rt _ _ _ _ _ _ _ _ _ _ _ _ _ => rt

/-- Field accessor: function body. -/
def AItem.body : AItem → Option AExpr
  | .mk _ _ _ _ _ _ _ b _ _ _ _ _ _ _ _ _ _ _ _ => b

/-- Field accessor: the is_extern flag. -/
def AItem.isExternFlag : AItem → Bool
  | .mk _ _ _ _ _ _ _ _ ie _ _ _ _ _ _ _ _ _ _ _ => ie

/-- Field accessor: the is_unsafe flag. -/
def AItem.isUnsafeFlag : AItem → Bool
  | .mk _ _ _ _ _ _ _ _ _ iu _ _ _ _ _ _ _ _ _ _ => iu

/-- Field accessor: struct fields. -/
def AItem.structFields : AItem → List StructField
  | .mk _ _ _ _ _ _ _ _ _ _ sf _ _ _ _ _ _ _ _ _ => sf

/-- Field accessor: enum variants. -/
def AItem.enumVariants : AItem → List EnumVariant
  | .mk _ _ _ _ _ _ _ _ _ _ _ ev _ _ _ _ _ _ _ _ => ev

/-- Field accessor: trait items. -/
def AItem.traitItems : AItem → List AItem
  | .mk _ _ _ _ _ _ _ _ _ _ _ _ ti _ _ _ _ _ _ _ => ti

/-- Field accessor: impl items. -/
def AItem.implItems : AItem → List AItem
  | .mk _ _ _ _ _ _ _ _ _ _ _ _ _ _ _ ii _ _ _ _ => ii

/-- Field accessor: module items. -/
def AItem.moduleItems : AItem → List AItem
  | .mk _ _ _ _ _ _ _ _ _ _ _ _ _ _ _ _ _ mi _ _ => mi

/-- `item->is_extern = true` (used by Parser::parse_extern). -/
def AItem.setExternFlag : AItem → AItem
  | .mk k v l n gp ps rt b _ iu sf ev ti ity itr ii aty mi ip ia =>
    .mk k v l n gp ps rt b true iu sf ev ti ity itr ii aty mi ip ia

/-- Every expression node's source location (the `location` member of
ast::Expr). -/
def AExpr.location : AExpr → SourceLocation
  | .literal _ l => l
  | .identE _ l => l
  | .binary _ _ _ l => l
  | .unary _ _ l => l
  | .call _ _ l => l
  | .indexE _ _ l => l
  | .fieldAccess _ _ l => l
  | .castE _ _ l => l
  | .structLiteral _ _ l => l
  | .arrayLiteral _ _ _ l => l
  | .tupleE _ l => l
  | .blockE _ _ l => l
  | .ifE _ _ _ l => l
  | .matchE _ _ l => l
  | .rangeE _ _ _ l => l
  | .returnE _ l => l
  | .whileE _ _ l => l
  | .forE _ _ _ l => l
  | .breakE l => l
  | .continueE l => l

/-- ast::Module. -/
structure AModule where
  name : String
  items : List AItem
  location : SourceLocation

/-! ## Parser (Parser.cpp)

The Parser object's mutable fields (`current_`, `errors_`) become `PState`;
the token vector is a fixed parameter.  Each recursive-descent function
takes explicit fuel: `ParseRes.fuelOut` means the fuel ran out (the C++
loops are not all terminating — see the `parse_module` theorems), and
`ParseRes.crash` marks the null-pointer dereference in parse_statement. -/

/-- Parser state: current_ and errors_. -/
structure PState where
  pos : Nat
  errors : List String
deriving DecidableEq, Repr

/-- Outcome of an embedded parser computation. -/
inductive ParseRes (α : Type) where
  | ok (a : α) (st : PState)
  | crash (st : PState)
  | fuelOut
deriving Repr

/-- Sequencing that propagates crash and fuel exhaustion. -/
def pbind {α β : Type} (r : ParseRes α) (f : α → PState → ParseRes β) : ParseRes β :=
  match r with
  | .ok a st => f a st
  | .crash st => .crash st
  | .fuelOut => .fuelOut

/-- Out-of-range default for token indexing; unreachable while the stream
ends in END_OF_FILE (the parser never advances past it). -/
def dummyToken : Token := { type := .endOfFile, lexeme := "", location := ⟨"", 0, 0, 0⟩ }

section ParserDefs

variable (toks : List Token)

/-- Parser::peek. -/
def ppeek (st : PState) : Token := toks.getD st.pos dummyToken

/-- Parser::peek_next. -/
def ppeek_next (st : PState) : Token :=
  if st.pos + 1 < toks.length then toks.getD (st.pos + 1) dummyToken
  else (toks.getLast?).getD dummyToken

/-- Parser::previous. -/
def pprevious (st : PState) : Token :=
  if 0 < st.pos then toks.getD (st.pos - 1) dummyToken else toks.getD 0 dummyToken

/-- Parser::is_at_end. -/
def pis_at_end (st : PState) : Bool := (ppeek toks st).type = .endOfFile

/-- Parser::advance. -/
def padvance (st : PState) : Token × PState :=
  let st' := if pis_at_end toks st then st else { st with pos := st.pos + 1 }
  (pprevious toks st', st')

/-- Parser::check. -/
def pcheck (ty : TokenType) (st : PState) : Bool :=
  if pis_at_end toks st then false else (ppeek toks st).type = ty

/-- Parser::match over a list of kinds. -/
def pmatch (tys : List TokenType) (st : PState) : Bool × PState :=
  if tys.any (fun ty => pcheck toks ty st) then (true, (padvance toks st).2)
  else (false, st)

/-- Parser::error_at: format "file:line:col: error: message" and append. -/
def perror_at (tok : Token) (msg : String) (st : PState) : PState :=
  { st with errors := st.errors ++
      [tok.location.filename ++ ":" ++ toString tok.location.line ++ ":" ++
       toString tok.location.column ++ ": error: " ++ msg] }

/-- Parser::error. -/
def perror (msg : String) (st : PState) : PState :=
  perror_at (ppeek toks st) msg st

/-- Parser::consume: advance past the expected kind, otherwise record the
error and return the current token with the position unchanged. -/
def pconsume (ty : TokenType) (msg : String) (st : PState) : Token × PState :=
  if pcheck toks ty st then padvance toks st
  else (ppeek toks st, perror toks msg st)

/-- Parser::parse_visibility. -/
def parse_visibility (st : PState) : Visibility × PState :=
  let m := pmatch toks [.kwPub] st
  if m.1 then (.publicV, m.2) else (.privateV, m.2)

end ParserDefs

/-- The token-to-BinaryOp map of parse_assignment (default: the field is
left uninitialized for `&= |= ^= <<= >>=`). -/
def assign_op_of (ty : TokenType) : BinaryOp :=
  match ty with
  | .assign => .assign
  | .plusEq => .addAssign
  | .minusEq => .subAssign
  | .starEq => .mulAssign
  | .slashEq => .divAssign
  | .percentEq => .modAssign
  | _ => .uninit

/-- The token-to-UnaryOp map of parse_unary (the `&`/`&mut` case is handled
at the call site). -/
def unary_op_of (ty : TokenType) : UnaryOp :=
  match ty with
  | .minus => .neg
  | .notOp => .notU
  | .tilde => .bitNot
  | _ => .deref

section ParserMutual

variable (toks : List Token)

mutual

/-- Loop of Parser::parse_module: parse items until END_OF_FILE; a null
item is dropped.  (The C++ try/catch around parse_item is dead: parse_item
throws nothing, so synchronize() is never invoked.) -/
def parse_module_loop (fuel : Nat) (items : List AItem) (st : PState) :
    ParseRes (List AItem) :=
  match fuel with
  | 0 => .fuelOut
  | n + 1 =>
    if ¬ pis_at_end toks st then
      pbind (parse_item n st) fun oi st2 =>
        parse_module_loop n (items ++ oi.toList) st2
    else .ok items st

/-- Parser::parse_item: optional visibility, then keyword dispatch. -/
def parse_item (fuel : Nat) (st : PState) : ParseRes (Option AItem) :=
  match fuel with
  | 0 => .fuelOut
  | n + 1 =>
    let v := parse_visibility toks st
    let m1 := pmatch toks [.kwFn] v.2
    if m1.1 then pbind (parse_function n v.1 m1.2) fun it st2 => .ok (some it) st2
    else
    let m2 := pmatch toks [.kwStruct] m1.2
    if m2.1 then pbind (parse_struct n v.1 m2.2) fun it st2 => .ok (some it) st2
    else
    let m3 := pmatch toks [.kwEnum] m2.2
    if m3.1 then pbind (parse_enum n v.1 m3.2) fun it st2 => .ok (some it) st2
    else
    let m4 := pmatch toks [.kwTrait] m3.2
    if m4.1 then pbind (parse_trait n v.1 m4.2) fun it st2 => .ok (some it) st2
    else
    let m5 := pmatch toks [.kwImpl] m4.2
    if m5.1 then pbind (parse_impl n m5.2) fun it st2 => .ok (some it) st2
    else
    let m6 := pmatch toks [.kwType] m5.2
    if m6.1 then pbind (parse_type_alias n v.1 m6.2) fun it st2 => .ok (some it) st2
    else
    let m7 := pmatch toks [.kwMod] m6.2
    if m7.1 then pbind (parse_mod_decl n v.1 m7.2) fun it st2 => .ok (some it) st2
    else
    let m8 := pmatch toks [.kwImport] m7.2
    if m8.1 then pbind (parse_import n m8.2) fun it st2 => .ok (some it) st2
    else
    let m9 := pmatch toks [.kwExtern] m8.2
    if m9.1 then parse_extern_item n m9.2
    else .ok none (perror toks "Expected item declaration" m9.2)

/-- Parser::parse_function.  Note: the body is parsed by parse_block_expr
after only CHECKING for `{` — the brace is not consumed (parse_block_expr's
other callers consume it first). -/
def parse_function (fuel : Nat) (vis : Visibility) (st : PState) :
    ParseRes AItem :=
  match fuel with
  | 0 => .fuelOut
  | n + 1 =>
    let loc := (pprevious toks st).location
    let mu := pmatch toks [.kwUnsafe] st
    let c1 := pconsume toks .identifier "Expected function name" mu.2
    pbind (if pcheck toks .lt c1.2 then parse_generic_params n c1.2
           else .ok [] c1.2) fun gps stG =>
    pbind (let c2 := pconsume toks .lparen "Expected '(' after function name" stG
           parse_function_params n c2.2) fun params stP =>
    pbind (let c3 := pconsume toks .rparen "Expected ')' after parameters" stP
           let ma := pmatch toks [.arrow] c3.2
           if ma.1 then parse_type n ma.2
           else .ok (some (.primitive (some "void") (ppeek toks ma.2).location)) ma.2)
      fun rt stR =>
    if pcheck toks .lbrace stR then
      pbind (parse_block_expr n stR) fun body stB =>
        .ok (.mk .function vis loc c1.1.lexeme gps params rt (some body)
              false mu.1 [] [] [] none none [] none [] [] none) stB
    else
      let c4 := pconsume toks .semicolon "Expected function body or ';'" stR
      .ok (.mk .function vis loc c1.1.lexeme gps params rt none
            false mu.1 [] [] [] none none [] none [] [] none) c4.2

/-- Loop of Parser::parse_function_params (do/while on commas). -/
def parse_function_params_loop (fuel : Nat) (acc : List FunctionParam)
    (st : PState) : ParseRes (List FunctionParam) :=
  match fuel with
  | 0 => .fuelOut
  | n + 1 =>
    let loc := (ppeek toks st).location
    let c1 := pconsume toks .identifier "Expected parameter name" st
    let c2 := pconsume toks .colon "Expected ':' after parameter name" c1.2
    pbind (parse_type n c2.2) fun ty st3 =>
      let m := pmatch toks [.comma] st3
      if m.1 then
        parse_function_params_loop n (acc ++ [⟨c1.1.lexeme, ty, loc⟩]) m.2
      else .ok (acc ++ [⟨c1.1.lexeme, ty, loc⟩]) m.2

/-- Parser::parse_function_params. -/
def parse_function_params (fuel : Nat) (st : PState) :
    ParseRes (List FunctionParam) :=
  match fuel with
  | 0 => .fuelOut
  | n + 1 =>
    if ¬ pcheck toks .rparen st then parse_function_params_loop n [] st
    else .ok [] st

/-- Loop of Parser::parse_generic_params. -/
def parse_generic_params_loop (fuel : Nat) (acc : List GenericParam)
    (st : PState) : ParseRes (List GenericParam) :=
  match fuel with
  | 0 => .fuelOut
  | n + 1 =>
    let loc := (ppeek toks st).location
    let c1 := pconsume toks .identifier "Expected generic parameter name" st
    let m := pmatch toks [.comma] c1.2
    if m.1 then parse_generic_params_loop n (acc ++ [⟨c1.1.lexeme, loc⟩]) m.2
    else .ok (acc ++ [⟨c1.1.lexeme, loc⟩]) m.2

/-- Parser::parse_generic_params. -/
def parse_generic_params (fuel : Nat) (st : PState) :
    ParseRes (List GenericParam) :=
  match fuel with
  | 0 => .fuelOut
  | n + 1 =>
    let c1 := pconsume toks .lt "Expected '<'" st
    pbind (if ¬ pcheck toks .gt c1.2 then parse_generic_params_loop n [] c1.2
           else .ok [] c1.2) fun gps st2 =>
      let c2 := pconsume toks .gt "Expected '>'" st2
      .ok gps c2.2

/-- Loop of Parser::parse_struct (fields until `}`; break when no comma). -/
def parse_struct_fields_loop (fuel : Nat) (acc : List StructField)
    (st : PState) : ParseRes (List StructField) :=
  match fuel with
  | 0 => .fuelOut
  | n + 1 =>
    if ¬ pcheck toks .rbrace st ∧ ¬ pis_at_end toks st then
      pbind (parse_struct_field n st) fun f st2 =>
        let m := pmatch toks [.comma] st2
        if m.1 then parse_struct_fields_loop n (acc ++ [f]) m.2
        else .ok (acc ++ [f]) m.2
    else .ok acc st

/-- Parser::parse_struct_field. -/
def parse_struct_field (fuel : Nat) (st : PState) : ParseRes StructField :=
  match fuel with
  | 0 => .fuelOut
  | n + 1 =>
    let loc := (ppeek toks st).location
    let v := parse_visibility toks st
    let c1 := pconsume toks .identifier "Expected field name" v.2
    let c2 := pconsume toks .colon "Expected ':' after field name" c1.2
    pbind (parse_type n c2.2) fun ty st3 =>
      .ok ⟨v.1, c1.1.lexeme, ty, loc⟩ st3

/-- Parser::parse_struct. -/
def parse_struct (fuel : Nat) (vis : Visibility) (st : PState) :
    ParseRes AItem :=
  match fuel with
  | 0 => .fuelOut
  | n + 1 =>
    let loc := (pprevious toks st).location
    let c1 := pconsume toks .identifier "Expected struct name" st
    pbind (if pcheck toks .lt c1.2 then parse_generic_params n c1.2
           else .ok [] c1.2) fun gps stG =>
    let c2 := pconsume toks .lbrace "Expected '\x7b'" stG
    pbind (parse_struct_fields_loop n [] c2.2) fun fields st3 =>
      let c3 := pconsume toks .rbrace "Expected '\x7d'" st3
      .ok (.mk .structK vis loc c1.1.lexeme gps [] none none false false
            fields [] [] none none [] none [] [] none) c3.2

/-- Loop of Parser::parse_enum. -/
def parse_enum_variants_loop (fuel : Nat) (acc : List EnumVariant)
    (st : PState) : ParseRes (List EnumVariant) :=
  match fuel with
  | 0 => .fuelOut
  | n + 1 =>
    if ¬ pcheck toks .rbrace st ∧ ¬ pis_at_end toks st then
      let loc := (ppeek toks st).location
      let c1 := pconsume toks .identifier "Expected variant name" st
      let m := pmatch toks [.comma] c1.2
      if m.1 then parse_enum_variants_loop n (acc ++ [⟨c1.1.lexeme, loc⟩]) m.2
      else .ok (acc ++ [⟨c1.1.lexeme, loc⟩]) m.2
    else .ok acc st

/-- Parser::parse_enum. -/
def parse_enum (fuel : Nat) (vis : Visibility) (st : PState) :
    ParseRes AItem :=
  match fuel with
  | 0 => .fuelOut
  | n + 1 =>
    let loc := (pprevious toks st).location
    let c1 := pconsume toks .identifier "Expected enum name" st
    pbind (if pcheck toks .lt c1.2 then parse_generic_params n c1.2
           else .ok [] c1.2) fun gps stG =>
    let c2 := pconsume toks .lbrace "Expected '\x7b'" stG
    pbind (parse_enum_variants_loop n [] c2.2) fun variants st3 =>
      let c3 := pconsume toks .rbrace "Expected '\x7d'" st3
      .ok (.mk .enumK vis loc c1.1.lexeme gps [] none none false false
            [] variants [] none none [] none [] [] none) c3.2

/-- Loop of Parser::parse_trait. -/
def parse_trait_items_loop (fuel : Nat) (acc : List AItem) (st : PState) :
    ParseRes (List AItem) :=
  match fuel with
  | 0 => .fuelOut
  | n + 1 =>
    if ¬ pcheck toks .rbrace st ∧ ¬ pis_at_end toks st then
      pbind (parse_item n st) fun oi st2 =>
        parse_trait_items_loop n (acc ++ oi.toList) st2
    else .ok acc st

/-- Parser::parse_trait. -/
def parse_trait (fuel : Nat) (vis : Visibility) (st : PState) :
    ParseRes AItem :=
  match fuel with
  | 0 => .fuelOut
  | n + 1 =>
    let loc := (pprevious toks st).location
    let c1 := pconsume toks .identifier "Expected trait name" st
    let c2 := pconsume toks .lbrace "Expected '\x7b'" c1.2
    pbind (parse_trait_items_loop n [] c2.2) fun tis st3 =>
      let c3 := pconsume toks .rbrace "Expected '\x7d'" st3
      .ok (.mk .traitK vis loc c1.1.lexeme [] [] none none false false
            [] [] tis none none [] none [] [] none) c3.2

/-- Parser::parse_impl. -/
def parse_impl (fuel : Nat) (st : PState) : ParseRes AItem :=
  match fuel with
  | 0 => .fuelOut
  | n + 1 =>
    let loc := (pprevious toks st).location
    pbind (parse_type n st) fun ity st2 =>
    let c1 := pconsume toks .lbrace "Expected '\x7b'" st2
    pbind (parse_trait_items_loop n [] c1.2) fun iis st3 =>
      let c2 := pconsume toks .rbrace "Expected '\x7d'" st3
      .ok (.mk .implK .privateV loc "" [] [] none none false false
            [] [] [] ity none iis none [] [] none) c2.2

/-- Parser::parse_type_alias. -/
def parse_type_alias (fuel : Nat) (vis : Visibility) (st : PState) :
    ParseRes AItem :=
  match fuel with
  | 0 => .fuelOut
  | n + 1 =>
    let loc := (pprevious toks st).location
    let c1 := pconsume toks .identifier "Expected type alias name" st
    let c2 := pconsume toks .assign "Expected '=' in type alias" c1.2
    pbind (parse_type n c2.2) fun aty st3 =>
      let c3 := pconsume toks .semicolon "Expected ';' after type alias" st3
      .ok (.mk .typeAlias vis loc c1.1.lexeme [] [] none none false false
            [] [] [] none none [] aty [] [] none) c3.2

/-- Parser::parse_module(vis) (the nested-module item form). -/
def parse_mod_decl (fuel : Nat) (vis : Visibility) (st : PState) :
    ParseRes AItem :=
  match fuel with
  | 0 => .fuelOut
  | n + 1 =>
    let loc := (pprevious toks st).location
    let c1 := pconsume toks .identifier "Expected module name" st
    let m := pmatch toks [.semicolon] c1.2
    if m.1 then
      .ok (.mk .moduleK vis loc c1.1.lexeme [] [] none none false false
            [] [] [] none none [] none [] [] none) m.2
    else
      let c2 := pconsume toks .lbrace "Expected '\x7b'" m.2
      pbind (parse_trait_items_loop n [] c2.2) fun mis st3 =>
        let c3 := pconsume toks .rbrace "Expected '\x7d'" st3
        .ok (.mk .moduleK vis loc c1.1.lexeme [] [] none none false false
              [] [] [] none none [] none mis [] none) c3.2

/-- Parser::parse_import. -/
def parse_import (fuel : Nat) (st : PState) : ParseRes AItem :=
  match fuel with
  | 0 => .fuelOut
  | n + 1 =>
    let loc := (pprevious toks st).location
    pbind (parse_path n st) fun path st2 =>
    let m := pmatch toks [.kwAs] st2
    let r : Option String × PState :=
      if m.1 then
        let c := pconsume toks .identifier "Expected alias name" m.2
        (some c.1.lexeme, c.2)
      else (none, m.2)
    let c2 := pconsume toks .semicolon "Expected ';' after import" r.2
    .ok (.mk .importK .privateV loc "" [] [] none none false false
          [] [] [] none none [] none [] path r.1) c2.2

/-- Parser::parse_extern: a single braced item; a function gets is_extern. -/
def parse_extern_item (fuel : Nat) (st : PState) : ParseRes (Option AItem) :=
  match fuel with
  | 0 => .fuelOut
  | n + 1 =>
    let c1 := pconsume toks .lbrace "Expected '\x7b'" st
    pbind (parse_item n c1.2) fun oi st2 =>
      let oi' :=
        match oi with
        | some it => if it.kind = .function then some it.setExternFlag else some it
        | none => none
      let c2 := pconsume toks .rbrace "Expected '\x7d'" st2
      .ok oi' c2.2

/-- Loop of Parser::parse_path (`::`-separated identifiers). -/
def parse_path_loop (fuel : Nat) (acc : List String) (st : PState) :
    ParseRes (List String) :=
  match fuel with
  | 0 => .fuelOut
  | n + 1 =>
    let m := pmatch toks [.colonColon] st
    if m.1 then
      let c := pconsume toks .identifier "Expected identifier after '::'" m.2
      parse_path_loop n (acc ++ [c.1.lexeme]) c.2
    else .ok acc m.2

/-- Parser::parse_path. -/
def parse_path (fuel : Nat) (st : PState) : ParseRes (List String) :=
  match fuel with
  | 0 => .fuelOut
  | n + 1 =>
    let c := pconsume toks .identifier "Expected identifier" st
    parse_path_loop n [c.1.lexeme] c.2

/-- Parser::parse_statement.  When parse_expression returns null the C++
dereferences the null pointer to build the statement: `ParseRes.crash`. -/
def parse_statement (fuel : Nat) (st : PState) : ParseRes AStmt :=
  match fuel with
  | 0 => .fuelOut
  | n + 1 =>
    let m := pmatch toks [.kwLet] st
    if m.1 then parse_let_statement n m.2
    else
      pbind (parse_expression n m.2) fun e st2 =>
        match e with
        | none => .crash st2
        | some ex =>
          let m2 := pmatch toks [.semicolon] st2
          .ok (.exprS ex m2.1 ex.location) m2.2

/-- Parser::parse_let_statement. -/
def parse_let_statement (fuel : Nat) (st : PState) : ParseRes AStmt :=
  match fuel with
  | 0 => .fuelOut
  | n + 1 =>
    let loc := (pprevious toks st).location
    pbind (parse_pattern n st) fun pat st2 =>
    pbind (let mc := pmatch toks [.colon] st2
           if mc.1 then parse_type n mc.2 else .ok none mc.2) fun ty st3 =>
    pbind (let ma := pmatch toks [.assign] st3
           if ma.1 then parse_expression n ma.2 else .ok none ma.2) fun ini st4 =>
    let c := pconsume toks .semicolon "Expected ';' after let statement" st4
    .ok (.letS pat ty ini loc) c.2

/-- Parser::parse_expression. -/
def parse_expression (fuel : Nat) (st : PState) : ParseRes (Option AExpr) :=
  match fuel with
  | 0 => .fuelOut
  | n + 1 => parse_assignment n st

/-- Parser::parse_assignment (right associative, maps the compound tokens;
`&= |= ^= <<= >>=` fall through the switch leaving binary_op uninitialized). -/
def parse_assignment (fuel : Nat) (st : PState) : ParseRes (Option AExpr) :=
  match fuel with
  | 0 => .fuelOut
  | n + 1 =>
    pbind (parse_logical_or n st) fun e st2 =>
      let m := pmatch toks [.assign, .plusEq, .minusEq, .starEq, .slashEq,
                            .percentEq, .ampEq, .pipeEq, .caretEq, .shlEq,
                            .shrEq] st2
      if m.1 then
        let op := pprevious toks m.2
        pbind (parse_assignment n m.2) fun right st3 =>
          .ok (some (.binary (assign_op_of op.type) e right op.location)) st3
      else .ok e m.2

/-- Loop of Parser::parse_logical_or. -/
def parse_logical_or_loop (fuel : Nat) (e : Option AExpr) (st : PState) :
    ParseRes (Option AExpr) :=
  match fuel with
  | 0 => .fuelOut
  | n + 1 =>
    let m := pmatch toks [.orOr] st
    if m.1 then
      let op := pprevious toks m.2
      pbind (parse_logical_and n m.2) fun right st2 =>
        parse_logical_or_loop n (some (.binary .orOp e right op.location)) st2
    else .ok e m.2

/-- Parser::parse_logical_or. -/
def parse_logical_or (fuel : Nat) (st : PState) : ParseRes (Option AExpr) :=
  match fuel with
  | 0 => .fuelOut
  | n + 1 =>
    pbind (parse_logical_and n st) fun e st2 => parse_logical_or_loop n e st2

/-- Loop of Parser::parse_logical_and. -/
def parse_logical_and_loop (fuel : Nat) (e : Option AExpr) (st : PState) :
    ParseRes (Option AExpr) :=
  match fuel with
  | 0 => .fuelOut
  | n + 1 =>
    let m := pmatch toks [.andAnd] st
    if m.1 then
      let op := pprevious toks m.2
      pbind (parse_bitwise_or n m.2) fun right st2 =>
        parse_logical_and_loop n (some (.binary .andOp e right op.location)) st2
    else .ok e m.2

/-- Parser::parse_logical_and. -/
def parse_logical_and (fuel : Nat) (st : PState) : ParseRes (Option AExpr) :=
  match fuel with
  | 0 => .fuelOut
  | n + 1 =>
    pbind (parse_bitwise_or n st) fun e st2 => parse_logical_and_loop n e st2

/-- Loop of Parser::parse_bitwise_or. -/
def parse_bitwise_or_loop (fuel : Nat) (e : Option AExpr) (st : PState) :
    ParseRes (Option AExpr) :=
  match fuel with
  | 0 => .fuelOut
  | n + 1 =>
    let m := pmatch toks [.pipe] st
    if m.1 then
      let op := pprevious toks m.2
      pbind (parse_bitwise_xor n m.2) fun right st2 =>
        parse_bitwise_or_loop n (some (.binary .bitOr e right op.location)) st2
    else .ok e m.2

/-- Parser::parse_bitwise_or. -/
def parse_bitwise_or (fuel : Nat) (st : PState) : ParseRes (Option AExpr) :=
  match fuel with
  | 0 => .fuelOut
  | n + 1 =>
    pbind (parse_bitwise_xor n st) fun e st2 => parse_bitwise_or_loop n e st2

/-- Loop of Parser::parse_bitwise_xor. -/
def parse_bitwise_xor_loop (fuel : Nat) (e : Option AExpr) (st : PState) :
    ParseRes (Option AExpr) :=
  match fuel with
  | 0 => .fuelOut
  | n + 1 =>
    let m := pmatch toks [.caret] st
    if m.1 then
      let op := pprevious toks m.2
      pbind (parse_bitwise_and n m.2) fun right st2 =>
        parse_bitwise_xor_loop n (some (.binary .bitXor e right op.location)) st2
    else .ok e m.2

/-- Parser::parse_bitwise_xor. -/
def parse_bitwise_xor (fuel : Nat) (st : PState) : ParseRes (Option AExpr) :=
  match fuel with
  | 0 => .fuelOut
  | n + 1 =>
    pbind (parse_bitwise_and n st) fun e st2 => parse_bitwise_xor_loop n e st2

/-- Loop of Parser::parse_bitwise_and. -/
def parse_bitwise_and_loop (fuel : Nat) (e : Option AExpr) (st : PState) :
    ParseRes (Option AExpr) :=
  match fuel with
  | 0 => .fuelOut
  | n + 1 =>
    let m := pmatch toks [.amp] st
    if m.1 then
      let op := pprevious toks m.2
      pbind (parse_equality n m.2) fun right st2 =>
        parse_bitwise_and_loop n (some (.binary .bitAnd e right op.location)) st2
    else .ok e m.2

/-- Parser::parse_bitwise_and. -/
def parse_bitwise_and (fuel : Nat) (st : PState) : ParseRes (Option AExpr) :=
  match fuel with
  | 0 => .fuelOut
  | n + 1 =>
    pbind (parse_equality n st) fun e st2 => parse_bitwise_and_loop n e st2

/-- Loop of Parser::parse_equality. -/
def parse_equality_loop (fuel : Nat) (e : Option AExpr) (st : PState) :
    ParseRes (Option AExpr) :=
  match fuel with
  | 0 => .fuelOut
  | n + 1 =>
    let m := pmatch toks [.eq, .ne] st
    if m.1 then
      let op := pprevious toks m.2
      pbind (parse_comparison n m.2) fun right st2 =>
        parse_equality_loop n
          (some (.binary (if op.type = .eq then .eqOp else .neOp) e right
            op.location)) st2
    else .ok e m.2

/-- Parser::parse_equality. -/
def parse_equality (fuel : Nat) (st : PState) : ParseRes (Option AExpr) :=
  match fuel with
  | 0 => .fuelOut
  | n + 1 =>
    pbind (parse_comparison n st) fun e st2 => parse_equality_loop n e st2

/-- Loop of Parser::parse_comparison. -/
def parse_comparison_loop (fuel : Nat) (e : Option AExpr) (st : PState) :
    ParseRes (Option AExpr) :=
  match fuel with
  | 0 => .fuelOut
  | n + 1 =>
    let m := pmatch toks [.lt, .le, .gt, .ge] st
    if m.1 then
      let op := pprevious toks m.2
      pbind (parse_shift n m.2) fun right st2 =>
        parse_comparison_loop n
          (some (.binary
            (if op.type = .lt then .ltOp
             else if op.type = .le then .leOp
             else if op.type = .gt then .gtOp
             else .geOp) e right op.location)) st2
    else .ok e m.2

/-- Parser::parse_comparison. -/
def parse_comparison (fuel : Nat) (st : PState) : ParseRes (Option AExpr) :=
  match fuel with
  | 0 => .fuelOut
  | n + 1 =>
    pbind (parse_shift n st) fun e st2 => parse_comparison_loop n e st2

/-- Loop of Parser::parse_shift. -/
def parse_shift_loop (fuel : Nat) (e : Option AExpr) (st : PState) :
    ParseRes (Option AExpr) :=
  match fuel with
  | 0 => .fuelOut
  | n + 1 =>
    let m := pmatch toks [.shl, .shr] st
    if m.1 then
      let op := pprevious toks m.2
      pbind (parse_term n m.2) fun right st2 =>
        parse_shift_loop n
          (some (.binary (if op.type = .shl then .shlOp else .shrOp) e right
            op.location)) st2
    else .ok e m.2

/-- Parser::parse_shift. -/
def parse_shift (fuel : Nat) (st : PState) : ParseRes (Option AExpr) :=
  match fuel with
  | 0 => .fuelOut
  | n + 1 =>
    pbind (parse_term n st) fun e st2 => parse_shift_loop n e st2

/-- Loop of Parser::parse_term. -/
def parse_term_loop (fuel : Nat) (e : Option AExpr) (st : PState) :
    ParseRes (Option AExpr) :=
  match fuel with
  | 0 => .fuelOut
  | n + 1 =>
    let m := pmatch toks [.plus, .minus] st
    if m.1 then
      let op := pprevious toks m.2
      pbind (parse_factor n m.2) fun right st2 =>
        parse_term_loop n
          (some (.binary (if op.type = .plus then .add else .sub) e right
            op.location)) st2
    else .ok e m.2

/-- Parser::parse_term. -/
def parse_term (fuel : Nat) (st : PState) : ParseRes (Option AExpr) :=
  match fuel with
  | 0 => .fuelOut
  | n + 1 =>
    pbind (parse_factor n st) fun e st2 => parse_term_loop n e st2

/-- Loop of Parser::parse_factor. -/
def parse_factor_loop (fuel : Nat) (e : Option AExpr) (st : PState) :
    ParseRes (Option AExpr) :=
  match fuel with
  | 0 => .fuelOut
  | n + 1 =>
    let m := pmatch toks [.star, .slash, .percent] st
    if m.1 then
      let op := pprevious toks m.2
      pbind (parse_unary n m.2) fun right st2 =>
        parse_factor_loop n
          (some (.binary
            (if op.type = .star then .mul
             else if op.type = .slash then .div
             else .mod) e right op.location)) st2
    else .ok e m.2

/-- Parser::parse_factor. -/
def parse_factor (fuel : Nat) (st : PState) : ParseRes (Option AExpr) :=
  match fuel with
  | 0 => .fuelOut
  | n + 1 =>
    pbind (parse_unary n st) fun e st2 => parse_factor_loop n e st2

/-- Parser::parse_unary: the operand is parsed before the switch, so for
`&` the `mut` keyword is matched only after the operand. -/
def parse_unary (fuel : Nat) (st : PState) : ParseRes (Option AExpr) :=
  match fuel with
  | 0 => .fuelOut
  | n + 1 =>
    let m := pmatch toks [.minus, .notOp, .tilde, .star, .amp] st
    if m.1 then
      let op := pprevious toks m.2
      pbind (parse_unary n m.2) fun operand st2 =>
        if op.type = .amp then
          let mm := pmatch toks [.kwMut] st2
          .ok (some (.unary (if mm.1 then .addrOfMut else .addrOf) operand
                op.location)) mm.2
        else
          .ok (some (.unary (unary_op_of op.type) operand op.location)) st2
    else parse_postfix_expr n st

/-- Loop of the call-argument list in Parser::parse_postfix. -/
def parse_call_args_loop (fuel : Nat) (acc : List (Option AExpr))
    (st : PState) : ParseRes (List (Option AExpr)) :=
  match fuel with
  | 0 => .fuelOut
  | n + 1 =>
    pbind (parse_expression n st) fun e st2 =>
      let m := pmatch toks [.comma] st2
      if m.1 then parse_call_args_loop n (acc ++ [e]) m.2
      else .ok (acc ++ [e]) m.2

/-- Loop of Parser::parse_postfix: calls, indexing, field access, casts. -/
def parse_postfix_loop (fuel : Nat) (e : Option AExpr) (st : PState) :
    ParseRes (Option AExpr) :=
  match fuel with
  | 0 => .fuelOut
  | n + 1 =>
    let m1 := pmatch toks [.lparen] st
    if m1.1 then
      let loc := (pprevious toks m1.2).location
      pbind (if ¬ pcheck toks .rparen m1.2 then parse_call_args_loop n [] m1.2
             else .ok [] m1.2) fun args st2 =>
        let c := pconsume toks .rparen "Expected ')' after arguments" st2
        parse_postfix_loop n (some (.call e args loc)) c.2
    else
    let m2 := pmatch toks [.lbracket] m1.2
    if m2.1 then
      let loc := (pprevious toks m2.2).location
      pbind (parse_expression n m2.2) fun idx st2 =>
        let c := pconsume toks .rbracket "Expected ']' after index" st2
        parse_postfix_loop n (some (.indexE e idx loc)) c.2
    else
    let m3 := pmatch toks [.dot] m2.2
    if m3.1 then
      let loc := (pprevious toks m3.2).location
      let c := pconsume toks .identifier "Expected field name" m3.2
      parse_postfix_loop n (some (.fieldAccess e c.1.lexeme loc)) c.2
    else
    let m4 := pmatch toks [.kwAs] m3.2
    if m4.1 then
      let loc := (pprevious toks m4.2).location
      pbind (parse_type n m4.2) fun ty st2 =>
        parse_postfix_loop n (some (.castE e ty loc)) st2
    else .ok e m4.2

/-- Parser::parse_postfix. -/
def parse_postfix_expr (fuel : Nat) (st : PState) : ParseRes (Option AExpr) :=
  match fuel with
  | 0 => .fuelOut
  | n + 1 =>
    pbind (parse_primary n st) fun e st2 => parse_postfix_loop n e st2

/-- Loop of the tuple tail in Parser::parse_primary's LPAREN case. -/
def parse_tuple_rest_loop (fuel : Nat) (acc : List (Option AExpr))
    (st : PState) : ParseRes (List (Option AExpr)) :=
  match fuel with
  | 0 => .fuelOut
  | n + 1 =>
    pbind (parse_expression n st) fun e st2 =>
      let m := pmatch toks [.comma] st2
      if m.1 then parse_tuple_rest_loop n (acc ++ [e]) m.2
      else .ok (acc ++ [e]) m.2

/-- Parser::parse_primary. -/
def parse_primary (fuel : Nat) (st : PState) : ParseRes (Option AExpr) :=
  match fuel with
  | 0 => .fuelOut
  | n + 1 =>
    let m1 := pmatch toks [.integerLiteral] st
    if m1.1 then
      -- literal_value = 0 placeholder ("TODO: Parse actual value")
      .ok (some (.literal (some (.intV 0)) (pprevious toks m1.2).location)) m1.2
    else
    let m2 := pmatch toks [.floatLiteral] m1.2
    if m2.1 then
      .ok (some (.literal (some (.floatV 0)) (pprevious toks m2.2).location)) m2.2
    else
    let m3 := pmatch toks [.stringLiteral] m2.2
    if m3.1 then
      .ok (some (.literal (some (.strV (pprevious toks m3.2).lexeme))
            (pprevious toks m3.2).location)) m3.2
    else
    let m4 := pmatch toks [.charLiteral] m3.2
    if m4.1 then
      .ok (some (.literal (some (.strV (pprevious toks m4.2).lexeme))
            (pprevious toks m4.2).location)) m4.2
    else
    let m5 := pmatch toks [.kwTrue] m4.2
    if m5.1 then
      .ok (some (.literal (some (.boolV true)) (pprevious toks m5.2).location)) m5.2
    else
    let m6 := pmatch toks [.kwFalse] m5.2
    if m6.1 then
      .ok (some (.literal (some (.boolV false)) (pprevious toks m6.2).location)) m6.2
    else
    let m7 := pmatch toks [.kwNull] m6.2
    if m7.1 then
      .ok (some (.literal none (pprevious toks m7.2).location)) m7.2
    else
    if pcheck toks .identifier m7.2 then
      pbind (parse_path n m7.2) fun path st2 =>
        if pcheck toks .lbrace st2 then parse_struct_literal n path st2
        else
          .ok (some (.identE (some (path.headD "")) (pprevious toks st2).location)) st2
    else
    let m8 := pmatch toks [.lparen] m7.2
    if m8.1 then
      let m9 := pmatch toks [.rparen] m8.2
      if m9.1 then
        .ok (some (.tupleE [] (pprevious toks m9.2).location)) m9.2
      else
        pbind (parse_expression n m9.2) fun first st2 =>
          let m10 := pmatch toks [.comma] st2
          if m10.1 then
            pbind (if ¬ pcheck toks .rparen m10.2 then
                     parse_tuple_rest_loop n [first] m10.2
                   else .ok [first] m10.2) fun elems st3 =>
              let c := pconsume toks .rparen "Expected ')' after tuple" st3
              .ok (some (.tupleE elems (pprevious toks m10.2).location)) c.2
          else
            let c := pconsume toks .rparen "Expected ')' after expression" m10.2
            .ok first c.2
    else
    let m11 := pmatch toks [.lbracket] m8.2
    if m11.1 then parse_array_literal n m11.2
    else
    let m12 := pmatch toks [.lbrace] m11.2
    if m12.1 then
      pbind (parse_block_expr n m12.2) fun b st2 => .ok (some b) st2
    else
    let m13 := pmatch toks [.kwIf] m12.2
    if m13.1 then
      pbind (parse_if_expr n m13.2) fun b st2 => .ok (some b) st2
    else
    let m14 := pmatch toks [.kwMatch] m13.2
    if m14.1 then
      pbind (parse_match_expr n m14.2) fun b st2 => .ok (some b) st2
    else .ok none (perror toks "Expected expression" m14.2)

/-- Loop of Parser::parse_block_expr: speculative tail-expression attempt
(position restored on failure, recorded errors kept), otherwise a
statement. -/
def parse_block_loop (fuel : Nat) (stmts : List AStmt) (st : PState) :
    ParseRes (List AStmt × Option AExpr) :=
  match fuel with
  | 0 => .fuelOut
  | n + 1 =>
    if ¬ pcheck toks .rbrace st ∧ ¬ pis_at_end toks st then
      if ¬ pcheck toks .kwLet st ∧ ¬ pcheck toks .semicolon st then
        pbind (parse_expression n st) fun e st2 =>
          if pcheck toks .rbrace st2 then .ok (stmts, e) st2
          else
            pbind (parse_statement n { st2 with pos := st.pos }) fun stmt st3 =>
              parse_block_loop n (stmts ++ [stmt]) st3
      else
        pbind (parse_statement n st) fun stmt st3 =>
          parse_block_loop n (stmts ++ [stmt]) st3
    else .ok (stmts, none) st

/-- Parser::parse_block_expr (the `{` must have been consumed by the
caller; parse_function fails to do so). -/
def parse_block_expr (fuel : Nat) (st : PState) : ParseRes AExpr :=
  match fuel with
  | 0 => .fuelOut
  | n + 1 =>
    let loc := (pprevious toks st).location
    pbind (parse_block_loop n [] st) fun r st2 =>
      let c := pconsume toks .rbrace "Expected '\x7d'" st2
      .ok (.blockE r.1 r.2 loc) c.2

/-- Parser::parse_if_expr. -/
def parse_if_expr (fuel : Nat) (st : PState) : ParseRes AExpr :=
  match fuel with
  | 0 => .fuelOut
  | n + 1 =>
    let loc := (pprevious toks st).location
    pbind (parse_expression n st) fun cond st2 =>
    let c1 := pconsume toks .lbrace "Expected '\x7b' after if condition" st2
    pbind (parse_block_expr n c1.2) fun thenB st3 =>
    let m := pmatch toks [.kwElse] st3
    if m.1 then
      let m2 := pmatch toks [.kwIf] m.2
      if m2.1 then
        pbind (parse_if_expr n m2.2) fun elseB st4 =>
          .ok (.ifE cond (some thenB) (some elseB) loc) st4
      else
        let c2 := pconsume toks .lbrace "Expected '\x7b' after else" m2.2
        pbind (parse_block_expr n c2.2) fun elseB st4 =>
          .ok (.ifE cond (some thenB) (some elseB) loc) st4
    else .ok (.ifE cond (some thenB) none loc) m.2

/-- Loop of Parser::parse_match_expr. -/
def parse_match_arms_loop (fuel : Nat)
    (acc : List (Option APattern × Option AExpr × SourceLocation))
    (st : PState) :
    ParseRes (List (Option APattern × Option AExpr × SourceLocation)) :=
  match fuel with
  | 0 => .fuelOut
  | n + 1 =>
    if ¬ pcheck toks .rbrace st ∧ ¬ pis_at_end toks st then
      let loc := (ppeek toks st).location
      pbind (parse_pattern n st) fun pat st2 =>
      let c1 := pconsume toks .fatArrow "Expected '=>' after pattern" st2
      pbind (parse_expression n c1.2) fun body st3 =>
        let m := pmatch toks [.comma] st3
        if m.1 then parse_match_arms_loop n (acc ++ [(pat, body, loc)]) m.2
        else .ok (acc ++ [(pat, body, loc)]) m.2
    else .ok acc st

/-- Parser::parse_match_expr. -/
def parse_match_expr (fuel : Nat) (st : PState) : ParseRes AExpr :=
  match fuel with
  | 0 => .fuelOut
  | n + 1 =>
    let loc := (pprevious toks st).location
    pbind (parse_expression n st) fun scrut st2 =>
    let c1 := pconsume toks .lbrace "Expected '\x7b' after match expression" st2
    pbind (parse_match_arms_loop n [] c1.2) fun arms st3 =>
      let c2 := pconsume toks .rbrace "Expected '\x7d'" st3
      .ok (.matchE scrut arms loc) c2.2

/-- Loop of Parser::parse_struct_literal. -/
def parse_struct_literal_fields_loop (fuel : Nat)
    (acc : List (String × Option AExpr × SourceLocation)) (st : PState) :
    ParseRes (List (String × Option AExpr × SourceLocation)) :=
  match fuel with
  | 0 => .fuelOut
  | n + 1 =>
    let loc := (ppeek toks st).location
    let c1 := pconsume toks .identifier "Expected field name" st
    let c2 := pconsume toks .colon "Expected ':' after field name" c1.2
    pbind (parse_expression n c2.2) fun v st3 =>
      let m := pmatch toks [.comma] st3
      if m.1 then
        parse_struct_literal_fields_loop n (acc ++ [(c1.1.lexeme, v, loc)]) m.2
      else .ok (acc ++ [(c1.1.lexeme, v, loc)]) m.2

/-- Parser::parse_struct_literal. -/
def parse_struct_literal (fuel : Nat) (path : List String) (st : PState) :
    ParseRes (Option AExpr) :=
  match fuel with
  | 0 => .fuelOut
  | n + 1 =>
    let loc := (ppeek toks st).location
    let c1 := pconsume toks .lbrace "Expected '\x7b'" st
    pbind (if ¬ pcheck toks .rbrace c1.2 then
             parse_struct_literal_fields_loop n [] c1.2
           else .ok [] c1.2) fun fields st2 =>
      let c2 := pconsume toks .rbrace "Expected '\x7d'" st2
      .ok (some (.structLiteral path fields loc)) c2.2

/-- Loop of Parser::parse_array_literal's element-list form. -/
def parse_array_elems_loop (fuel : Nat) (acc : List (Option AExpr))
    (st : PState) : ParseRes (List (Option AExpr)) :=
  match fuel with
  | 0 => .fuelOut
  | n + 1 =>
    let m := pmatch toks [.comma] st
    if m.1 then
      if pcheck toks .rbracket m.2 then .ok acc m.2
      else
        pbind (parse_expression n m.2) fun e st2 =>
          parse_array_elems_loop n (acc ++ [e]) st2
    else .ok acc m.2

/-- Parser::parse_array_literal (the `[` already consumed). -/
def parse_array_literal (fuel : Nat) (st : PState) : ParseRes (Option AExpr) :=
  match fuel with
  | 0 => .fuelOut
  | n + 1 =>
    let loc := (pprevious toks st).location
    let m := pmatch toks [.rbracket] st
    if m.1 then
      .ok (some (.arrayLiteral [] none none loc)) m.2
    else
      pbind (parse_expression n m.2) fun first st2 =>
        let ms := pmatch toks [.semicolon] st2
        if ms.1 then
          pbind (parse_expression n ms.2) fun count st3 =>
            let c := pconsume toks .rbracket "Expected ']'" st3
            .ok (some (.arrayLiteral [] first count loc)) c.2
        else
          pbind (parse_array_elems_loop n [first] ms.2) fun elems st3 =>
            let c := pconsume toks .rbracket "Expected ']'" st3
            .ok (some (.arrayLiteral elems none none loc)) c.2

/-- Parser::parse_type. -/
def parse_type (fuel : Nat) (st : PState) : ParseRes (Option AType) :=
  match fuel with
  | 0 => .fuelOut
  | n + 1 => parse_type_primary n st

/-- Loop of the tuple-type form of Parser::parse_type_primary. -/
def parse_type_tuple_loop (fuel : Nat) (acc : List (Option AType))
    (st : PState) : ParseRes (List (Option AType)) :=
  match fuel with
  | 0 => .fuelOut
  | n + 1 =>
    pbind (parse_type n st) fun ty st2 =>
      let m := pmatch toks [.comma] st2
      if m.1 then parse_type_tuple_loop n (acc ++ [ty]) m.2
      else .ok (acc ++ [ty]) m.2

/-- Parser::parse_type_primary. -/
def parse_type_primary (fuel : Nat) (st : PState) : ParseRes (Option AType) :=
  match fuel with
  | 0 => .fuelOut
  | n + 1 =>
    let m1 := pmatch toks [.star] st
    if m1.1 then
      let loc := (pprevious toks m1.2).location
      let mm := pmatch toks [.kwMut] m1.2
      pbind (parse_type n mm.2) fun pointee st2 =>
        .ok (some (.pointer mm.1 pointee loc)) st2
    else
    let m2 := pmatch toks [.amp] m1.2
    if m2.1 then
      let loc := (pprevious toks m2.2).location
      let mm := pmatch toks [.kwMut] m2.2
      pbind (parse_type n mm.2) fun pointee st2 =>
        .ok (some (.reference mm.1 pointee loc)) st2
    else
    let m3 := pmatch toks [.lbracket] m2.2
    if m3.1 then
      let loc := (pprevious toks m3.2).location
      pbind (parse_type n m3.2) fun elem st2 =>
        let ms := pmatch toks [.semicolon] st2
        -- fixed size: "TODO: Parse size expression"; array_size = 0
        let size : Option Nat := if ms.1 then some 0 else none
        let c := pconsume toks .rbracket "Expected ']'" ms.2
        .ok (some (.array elem size loc)) c.2
    else
    let m4 := pmatch toks [.lparen] m3.2
    if m4.1 then
      let loc := (pprevious toks m4.2).location
      pbind (if ¬ pcheck toks .rparen m4.2 then parse_type_tuple_loop n [] m4.2
             else .ok [] m4.2) fun elems st2 =>
        let c := pconsume toks .rparen "Expected ')'" st2
        .ok (some (.tupleT elems loc)) c.2
    else
    let m5 := pmatch toks [.kwFn] m4.2
    if m5.1 then
      let loc := (pprevious toks m5.2).location
      let c1 := pconsume toks .lparen "Expected '('" m5.2
      pbind (if ¬ pcheck toks .rparen c1.2 then parse_type_tuple_loop n [] c1.2
             else .ok [] c1.2) fun ps st2 =>
      let c2 := pconsume toks .rparen "Expected ')'" st2
      pbind (let ma := pmatch toks [.arrow] c2.2
             if ma.1 then parse_type n ma.2 else .ok none ma.2) fun ret st3 =>
        .ok (some (.functionT ps ret loc)) st3
    else
    if pcheck toks .identifier m5.2 ∨
       pcheck toks .kwI8 m5.2 ∨ pcheck toks .kwI16 m5.2 ∨
       pcheck toks .kwI32 m5.2 ∨ pcheck toks .kwI64 m5.2 ∨
       pcheck toks .kwI128 m5.2 ∨ pcheck toks .kwIsize m5.2 ∨
       pcheck toks .kwU8 m5.2 ∨ pcheck toks .kwU16 m5.2 ∨
       pcheck toks .kwU32 m5.2 ∨ pcheck toks .kwU64 m5.2 ∨
       pcheck toks .kwU128 m5.2 ∨ pcheck toks .kwUsize m5.2 ∨
       pcheck toks .kwF32 m5.2 ∨ pcheck toks .kwF64 m5.2 ∨
       pcheck toks .kwBool m5.2 ∨ pcheck toks .kwChar m5.2 ∨
       pcheck toks .kwVoid m5.2 then
      let loc := (ppeek toks m5.2).location
      if pcheck toks .identifier m5.2 then
        pbind (parse_path n m5.2) fun path st2 =>
          .ok (some (.named none path loc)) st2
      else
        let a := padvance toks m5.2
        .ok (some (.named (some a.1.lexeme) [] loc)) a.2
    else .ok none (perror toks "Expected type" m5.2)

/-- Loop of the tuple-pattern form of Parser::parse_pattern_primary. -/
def parse_pattern_tuple_loop (fuel : Nat) (acc : List (Option APattern))
    (st : PState) : ParseRes (List (Option APattern)) :=
  match fuel with
  | 0 => .fuelOut
  | n + 1 =>
    pbind (parse_pattern n st) fun p st2 =>
      let m := pmatch toks [.comma] st2
      if m.1 then parse_pattern_tuple_loop n (acc ++ [p]) m.2
      else .ok (acc ++ [p]) m.2

/-- Parser::parse_pattern. -/
def parse_pattern (fuel : Nat) (st : PState) : ParseRes (Option APattern) :=
  match fuel with
  | 0 => .fuelOut
  | n + 1 => parse_pattern_primary n st

/-- Parser::parse_pattern_primary: `_` wildcard, identifier binding
(is_mutable is never set — "TODO: Check for mut"), literal, tuple.
A `mut` keyword in pattern position matches none of these. -/
def parse_pattern_primary (fuel : Nat) (st : PState) :
    ParseRes (Option APattern) :=
  match fuel with
  | 0 => .fuelOut
  | n + 1 =>
    let m1 := pmatch toks [.identifier] st
    if m1.1 then
      if (pprevious toks m1.2).lexeme = "_" then
        .ok (some (.wildcard (pprevious toks m1.2).location)) m1.2
      else
        .ok (some (.identP (some (pprevious toks m1.2).lexeme) false
              (pprevious toks m1.2).location)) m1.2
    else
    let m2 := pmatch toks [.integerLiteral, .floatLiteral, .stringLiteral,
                           .charLiteral, .kwTrue, .kwFalse] m1.2
    if m2.1 then
      -- "TODO: Set literal value"
      .ok (some (.literalP none (pprevious toks m2.2).location)) m2.2
    else
    let m3 := pmatch toks [.lparen] m2.2
    if m3.1 then
      let loc := (pprevious toks m3.2).location
      pbind (if ¬ pcheck toks .rparen m3.2 then parse_pattern_tuple_loop n [] m3.2
             else .ok [] m3.2) fun ps st2 =>
        let c := pconsume toks .rparen "Expected ')'" st2
        .ok (some (.tupleP ps loc)) c.2
    else .ok none (perror toks "Expected pattern" m3.2)

end

/-- Parser::parse_module (entry point): the module named "<main>" located
at the first token. -/
def parse_module_top (fuel : Nat) (st : PState) : ParseRes AModule :=
  match fuel with
  | 0 => .fuelOut
  | n + 1 =>
    pbind (parse_module_loop toks n [] st) fun items st2 =>
      .ok ⟨"<main>", items, (ppeek toks st).location⟩ st2

end ParserMutual

/-! ## Resolver (SemanticAnalyzer.cpp)

Scopes become an explicit parent chain (innermost first); the
unordered_map of a scope becomes an association list (only `find` and
`insert` are used). -/

/-- sema::Symbol.  The C++ `ast::Type*` member is modelled by the
pointed-to type value (or none for null). -/
structure Symbol where
  name : String
  type : Option AType
  isMutable : Bool
  isInitialized : Bool
  location : SourceLocation
deriving Repr

/-- The analyzer's mutable state: the scope chain (innermost first; the
constructor pushes the global scope) and the diagnostic lists. -/
structure SemaState where
  scopes : List (List (String × Symbol))
  errors : List String
  warnings : List String
deriving Repr

/-- SemanticAnalyzer constructor state: one (global) scope. -/
def initSemaState : SemaState := ⟨[[]], [], []⟩

/-- Scope::lookup through the parent chain. -/
def scope_lookup : List (List (String × Symbol)) → String → Option Symbol
  | [], _ => none
  | s :: rest, n =>
    match s.lookup n with
    | some sym => some sym
    | none => scope_lookup rest n

/-- Scope::define on the current (innermost) scope: false if the name is
already defined there. -/
def scope_define (st : SemaState) (n : String) (sym : Symbol) :
    Bool × SemaState :=
  match st.scopes with
  | [] => (false, st)
  | s :: rest =>
    if (s.lookup n).isSome then (false, st)
    else (true, { st with scopes := ((n, sym) :: s) :: rest })

/-- SemanticAnalyzer::push_scope. -/
def push_scope (st : SemaState) : SemaState :=
  { st with scopes := [] :: st.scopes }

/-- SemanticAnalyzer::pop_scope. -/
def pop_scope (st : SemaState) : SemaState :=
  { st with scopes := st.scopes.tail }

/-- SemanticAnalyzer::error. -/
def sema_error (loc : SourceLocation) (msg : String) (st : SemaState) :
    SemaState :=
  { st with errors := st.errors ++
      [loc.filename ++ ":" ++ toString loc.line ++ ":" ++
       toString loc.column ++ ": error: " ++ msg] }

/-- SemanticAnalyzer::resolve_name: a miss appends exactly one
"Undefined identifier" diagnostic at the use site. -/
def resolve_name (n : String) (loc : SourceLocation) (st : SemaState) :
    Option Symbol × SemaState :=
  match scope_lookup st.scopes n with
  | some sym => (some sym, st)
  | none => (none, sema_error loc ("Undefined identifier '" ++ n ++ "'") st)

/-- The operator set of the assignment branch in
SemanticAnalyzer::analyze_expr (Binary case): `= += -= *= /= %=` only —
the remaining compound assignments take the ordinary-binary branch. -/
def is_sema_assign_op (op : BinaryOp) : Bool :=
  decide (op = .assign ∨ op = .addAssign ∨ op = .subAssign ∨
          op = .mulAssign ∨ op = .divAssign ∨ op = .modAssign)

/-- The duplicate-field check of SemanticAnalyzer::analyze_struct
(quadratic scan; the error points at the later field). -/
def struct_dup_errors (st : SemaState) : List StructField → SemaState
  | [] => st
  | f :: rest =>
    struct_dup_errors
      (rest.foldl
        (fun s g =>
          if g.name = f.name then
            sema_error g.location ("Duplicate field '" ++ g.name ++ "'") s
          else s)
        st)
      rest

/-- SemanticAnalyzer::analyze_struct. -/
def analyze_struct (st : SemaState) (item : AItem) : SemaState :=
  struct_dup_errors st item.structFields

/-- The duplicate-variant check of SemanticAnalyzer::analyze_enum. -/
def enum_dup_errors (st : SemaState) : List EnumVariant → SemaState
  | [] => st
  | v :: rest =>
    enum_dup_errors
      (rest.foldl
        (fun s w =>
          if w.name = v.name then
            sema_error w.location ("Duplicate variant '" ++ w.name ++ "'") s
          else s)
        st)
      rest

/-- SemanticAnalyzer::analyze_enum. -/
def analyze_enum (st : SemaState) (item : AItem) : SemaState :=
  enum_dup_errors st item.enumVariants

/-- The parameter-definition loop of SemanticAnalyzer::analyze_function. -/
def analyze_params (st : SemaState) : List FunctionParam → SemaState
  | [] => st
  | p :: rest =>
    let r := scope_define st p.name
      ⟨p.name, p.type, false, true, p.location⟩
    let st2 :=
      if r.1 then r.2
      else sema_error p.location ("Redefinition of parameter '" ++ p.name ++ "'") r.2
    analyze_params st2 rest

mutual

/-- SemanticAnalyzer::analyze_expr on a possibly-null expression (the C++
function returns immediately on null). -/
def analyze_opt_expr (st : SemaState) (oe : Option AExpr) : SemaState :=
  match oe with
  | none => st
  | some e => analyze_expr st e

/-- analyze_expr over an argument/element list. -/
def analyze_opt_exprs (st : SemaState) (es : List (Option AExpr)) : SemaState :=
  match es with
  | [] => st
  | e :: rest => analyze_opt_exprs (analyze_opt_expr st e) rest

/-- The match-arm loop of SemanticAnalyzer::analyze_expr (Match case):
per arm, a fresh scope, the identifier pattern's binding (immutable),
then the body. -/
def analyze_arms (st : SemaState)
    (arms : List (Option APattern × Option AExpr × SourceLocation)) :
    SemaState :=
  match arms with
  | [] => st
  | (pat, body, _) :: rest =>
    let st1 := push_scope st
    let st2 :=
      match pat with
      | some (.identP (some nm) _ ploc) =>
        (scope_define st1 nm ⟨nm, none, false, true, ploc⟩).2
      | _ => st1
    let st3 := analyze_opt_expr st2 body
    analyze_arms (pop_scope st3) rest

/-- SemanticAnalyzer::analyze_expr. -/
def analyze_expr (st : SemaState) (e : AExpr) : SemaState :=
  match e with
  | .literal _ _ => st
  | .identE name loc =>
    match name with
    | some n => (resolve_name n loc st).2
    | none => st
  | .binary op left right _ =>
    if is_sema_assign_op op then
      -- For the assignment forms the left side is only inspected: when it
      -- is an identifier the symbol is looked up for a mutability check
      -- whose error action is left out ("For now, just continue"), so no
      -- state changes and no diagnostic is produced for the left side.
      analyze_opt_expr st right
    else
      analyze_opt_expr (analyze_opt_expr st left) right
  | .unary _ operand _ => analyze_opt_expr st operand
  | .call callee args _ => analyze_opt_exprs (analyze_opt_expr st callee) args
  | .indexE indexed index _ =>
    analyze_opt_expr (analyze_opt_expr st indexed) index
  | .fieldAccess object _ _ => analyze_opt_expr st object
  | .castE ce _ _ => analyze_opt_expr st ce
  | .blockE stmts tail _ =>
    pop_scope (analyze_opt_expr (analyze_stmts (push_scope st) stmts) tail)
  | .ifE cond thenB elseB _ =>
    analyze_opt_expr (analyze_opt_expr (analyze_opt_expr st cond) thenB) elseB
  | .matchE scrut arms _ => analyze_arms (analyze_opt_expr st scrut) arms
  | .arrayLiteral elems rv rc _ =>
    let st1 := analyze_opt_exprs st elems
    if rv.isSome then analyze_opt_expr (analyze_opt_expr st1 rv) rc else st1
  | .tupleE elems _ => analyze_opt_exprs st elems
  | .returnE v _ => analyze_opt_expr st v
  | .whileE cond body _ => analyze_opt_expr (analyze_opt_expr st cond) body
  | .forE pat iter body _ =>
    let st1 := analyze_opt_expr st iter
    let st2 := push_scope st1
    let st3 :=
      match pat with
      | some (.identP (some nm) _ ploc) =>
        (scope_define st2 nm ⟨nm, none, false, true, ploc⟩).2
      | _ => st2
    pop_scope (analyze_opt_expr st3 body)
  | .breakE _ => st
  | .continueE _ => st
  | .rangeE _ _ _ _ => st
  | .structLiteral _ _ _ => st

/-- The statement loop of the Block case. -/
def analyze_stmts (st : SemaState) (ss : List AStmt) : SemaState :=
  match ss with
  | [] => st
  | s :: rest => analyze_stmts (analyze_stmt st s) rest

/-- SemanticAnalyzer::analyze_stmt. -/
def analyze_stmt (st : SemaState) (stmt : AStmt) : SemaState :=
  match stmt with
  | .letS pat ty ini loc =>
    let st1 := analyze_opt_expr st ini
    (match pat with
     | some p =>
       (match p with
        | .identP bn isMut _ =>
          (match bn with
           | none =>
             sema_error loc "Let statement identifier pattern has no binding_name" st1
           | some nm =>
             if nm = "" then
               sema_error loc "Let statement identifier pattern has empty binding_name" st1
             else
               let r := scope_define st1 nm ⟨nm, ty, isMut, ini.isSome, loc⟩
               if r.1 then r.2
               else sema_error loc ("Redefinition of '" ++ nm ++ "'") r.2)
        | _ => st1)
     | none => sema_error loc "Let statement missing pattern" st1)
  | .exprS e _ _ => analyze_expr st e
  | .itemS item _ =>
    match item with
    | some it => analyze_item st it
    | none => st

/-- SemanticAnalyzer::analyze_item.  The Function case is the body of
SemanticAnalyzer::analyze_function, written here so that the recursion into
the function body is structural; the standalone `analyze_function` below
restates the C++ method. -/
def analyze_item (st : SemaState) (it : AItem) : SemaState :=
  match it with
  | .mk kind _ _ _ _ params _ body _ _ _ _ _ _ _ _ _ _ _ _ =>
    match kind with
    | .function =>
      let st1 := analyze_params (push_scope st) params
      let st2 :=
        match body with
        | some b => analyze_expr st1 b
        | none => st1
      pop_scope st2
    | .structK => analyze_struct st it
    | .enumK => analyze_enum st it
    | _ => st

end

/-- SemanticAnalyzer::analyze_function (the Function case of `analyze_item`,
restated as the standalone C++ method). -/
def analyze_function (st : SemaState) (func : AItem) : SemaState :=
  let st1 := analyze_params (push_scope st) func.params
  let st2 :=
    match func.body with
    | some b => analyze_expr st1 b
    | none => st1
  pop_scope st2

/-- The hoist pass of SemanticAnalyzer::analyze (top-level Function,
Struct and Enum names into the global scope). -/
def hoist_item (st : SemaState) (item : AItem) : SemaState :=
  if item.kind = .function ∨ item.kind = .structK ∨ item.kind = .enumK then
    let r := scope_define st item.name ⟨item.name, none, false, true, item.location⟩
    if r.1 then r.2
    else sema_error item.location ("Redefinition of '" ++ item.name ++ "'") r.2
  else st

/-- SemanticAnalyzer::analyze: hoist pass, body pass, success iff no
errors accumulated. -/
def analyze_module (m : AModule) : Bool × SemaState :=
  let st1 := m.items.foldl hoist_item initSemaState
  let st2 := m.items.foldl analyze_item st1
  (st2.errors.isEmpty, st2)

/-! ## Command-line driver (main.cpp) -/

/-- CompilerOptions of main.cpp. -/
structure CompilerOptions where
  inputFile : String := ""
  outputFile : String := ""
  emitLlvmIr : Bool := false
  emitAst : Bool := false
  emitTokens : Bool := false
  verbose : Bool := false
  help : Bool := false
deriving Repr

/-- `arg[0]` on a std::string (the null character for the empty string). -/
def arg_first_char (arg : String) : Char :=
  arg.data.getD 0 nulChar

/-- The argument loop of parse_args.  `-h`, `--help` and an unknown option
all set `help` and return at once; `-o` consumes the next argument when
one exists (otherwise it falls through to the unknown-option branch). -/
def parse_args_loop (opts : CompilerOptions) : List String → CompilerOptions
  | [] => opts
  | arg :: rest =>
    if arg = "-h" ∨ arg = "--help" then { opts with help := true }
    else if arg = "-o" ∧ rest.length > 0 then
      match rest with
      | out :: rest2 => parse_args_loop { opts with outputFile := out } rest2
      | [] => opts
    else if arg = "--emit-llvm" then
      parse_args_loop { opts with emitLlvmIr := true } rest
    else if arg = "--emit-ast" then
      parse_args_loop { opts with emitAst := true } rest
    else if arg = "--emit-tokens" then
      parse_args_loop { opts with emitTokens := true } rest
    else if arg = "-v" ∨ arg = "--verbose" then
      parse_args_loop { opts with verbose := true } rest
    else if ¬ arg_first_char arg = '-' then
      parse_args_loop { opts with inputFile := arg } rest
    else { opts with help := true }

/-- main.cpp parse_args over argv[1..]. -/
def parse_args (args : List String) : CompilerOptions :=
  parse_args_loop {} args

/-- The exit decision main() takes before any file is read:
`if (opts.help || opts.input_file.empty()) return opts.help ? 0 : 1;` —
`some code` is the exit code, `none` means the driver continues to the
pipeline. -/
def main_early_exit (args : List String) : Option Nat :=
  let opts := parse_args args
  if opts.help ∨ opts.inputFile = "" then
    some (if opts.help then 0 else 1)
  else none

/-! ## Concrete runs for the claim theorems

Inputs are fed through the full embedded pipeline (`lex_source`, then the
fuelled parser, then the resolver).  The projections below only observe the
results; everything is executable, so theorems about them are closed
computations checked by the kernel. -/

/-- The token stream of a source string lexed as file "t.apex". -/
def apexToks (s : String) : List Token := (lex_source s "t.apex").1

/-- Parser::parse_module over the tokens of `s`, from the initial state. -/
def apexParse (s : String) : ParseRes AModule :=
  parse_module_top (apexToks s) 400 ⟨0, []⟩

/-- Parser::parse_expression over the tokens of `s`, from the initial state. -/
def apexParseExpr (s : String) : ParseRes (Option AExpr) :=
  parse_expression (apexToks s) 100 ⟨0, []⟩

/-- Parser::parse_pattern over the tokens of `s`, from the initial state. -/
def apexParsePattern (s : String) : ParseRes (Option APattern) :=
  parse_pattern (apexToks s) 50 ⟨0, []⟩

/-- How a parse ended. -/
def parse_outcome {α : Type} : ParseRes α → String
  | .ok _ _ => "ok"
  | .crash _ => "crash"
  | .fuelOut => "fuel-exhausted"

/-- The diagnostics a parse accumulated. -/
def parse_errs {α : Type} : ParseRes α → List String
  | .ok _ st => st.errors
  | .crash st => st.errors
  | .fuelOut => []

/-- The items of a successfully parsed module. -/
def parsed_items : ParseRes AModule → List AItem
  | .ok m _ => m.items
  | _ => []

/-- The expression of a successful parse_expression run. -/
def parsed_expr : ParseRes (Option AExpr) → Option AExpr
  | .ok oe _ => oe
  | _ => none

/-- A placeholder item for list indexing. -/
def dummyItem : AItem :=
  .mk .moduleK .privateV ⟨"", 0, 0, 0⟩ "" [] [] none none false false
    [] [] [] none none [] none [] [] none

/-- C1's input. -/
def c1_source : String := "fn id(x: i32) -> i32 \x7b x \x7d"

/-- C1's single parsed item. -/
def c1_item : AItem := (parsed_items (apexParse c1_source)).headD dummyItem

/-- Observation of C1's parsed function body: matches exactly a block whose
single statement is an inner block expression ending in a tail identifier,
and whose own tail is missing; returns that identifier's name, the
statement's semicolon flag and the inner block's statement count. -/
def c1_body_obs : Option AExpr → Option (String × Bool × Nat)
  | some (.blockE [.exprS (.blockE inner (some (.identE (some nm) _)) _) semi _] none _) =>
      some (nm, semi, inner.length)
  | _ => none

/-- C2's input. -/
def c2_source : String :=
  "fn sel(c: bool, a: i32, b: i32) -> i32 \x7b if c \x7b a \x7d else \x7b b \x7d \x7d"

/-- The head path of a struct-literal expression. -/
def struct_lit_path : Option AExpr → Option (List String)
  | some (.structLiteral path _ _) => some path
  | _ => none

/-- C3's input. -/
def c3_source : String :=
  "fn inc(x: i32) -> i32 \x7b let mut y = x; y = y + 1; y \x7d"

/-- Whether a pattern parse succeeded while producing a null pattern. -/
def pat_is_null : ParseRes (Option APattern) → Bool
  | .ok p _ => p.isNone
  | _ => false

/-- C4: a function whose body assigns to an undefined name. -/
def c4_assign_source : String := "fn f() \x7b missing = 1; \x7d"

/-- C4: a function whose body reads an undefined name. -/
def c4_bare_source : String := "fn g() \x7b missing; \x7d"

/-- Resolver errors over the parse of `s` (`none` when the parse failed). -/
def sema_errors_of (s : String) : Option (List String) :=
  match apexParse s with
  | .ok m _ => some (analyze_module m).2.errors
  | _ => none

/-- Statement count of a block expression. -/
def block_stmt_count : Option AExpr → Option Nat
  | some (.blockE stmts _ _) => some stmts.length
  | _ => none

/-- The literal value of a block expression's tail, when that tail is a
literal expression. -/
def block_tail_lit : Option AExpr → Option (Option LitValue)
  | some (.blockE _ (some (.literal v _)) _) => some v
  | _ => none

/-- Whether a block expression has a tail expression. -/
def block_has_tail : Option AExpr → Option Bool
  | some (.blockE _ t _) => some t.isSome
  | _ => none

/-- The first statement of a block when it is an expression statement whose
expression is a literal: the literal's value and the semicolon flag. -/
def block_first_stmt_lit : Option AExpr → Option (Option LitValue × Bool)
  | some (.blockE (.exprS (.literal v _) semi _ :: _) _ _) => some (v, semi)
  | _ => none

/-- C9: a command line with an unknown flag. -/
def c9_args : List String := ["--bogus", "input.apex"]

/-- C10's token stream: a stray top-level semicolon, then END_OF_FILE — the
stream `lex_source ";" "t.apex"` produces (the C10 theorem checks that
equality). -/
def c10_tokens : List Token :=
  [{ type := .semicolon, lexeme := ";", location := ⟨"t.apex", 1, 2, 1⟩ },
   { type := .endOfFile, lexeme := "", location := ⟨"t.apex", 1, 2, 1⟩ }]

/-! ## Theorems

First the lexer's monotonicity/progress lemmas, then the per-claim
developments. -/

section LexerTheorems

variable (src : List Char) (fname : String)

theorem advance_pos (s : LexState) :
    (advance src s).2.pos = if src.length ≤ s.pos then s.pos else s.pos + 1 := by
  unfold advance
  split
  · rfl
  · dsimp only
    split <;> rfl

theorem advance_pos_le (s : LexState) : s.pos ≤ (advance src s).2.pos := by
  have h := advance_pos src s
  split at h <;> omega

theorem match_ch_pos (c : Char) (s : LexState) :
    s.pos ≤ (match_ch src c s).2.pos := by
  unfold match_ch
  split
  · simp
  · simpa using advance_pos_le src s

theorem add_error_pos (msg : String) (s : LexState) :
    (add_error fname msg s).pos = s.pos := rfl

theorem make_error_token_pos (msg : String) (s : LexState) :
    (make_error_token fname msg s).2.pos = s.pos := rfl

theorem advance_while_pos_le (p : Char → Bool) (fuel : Nat) (s : LexState) :
    s.pos ≤ (advance_while src p fuel s).pos := by
  induction fuel generalizing s with
  | zero => exact le_refl _
  | succ n ih =>
    rw [advance_while]
    split
    · exact le_trans (advance_pos_le src s) (ih _)
    · exact le_refl _

theorem skip_line_comment_pos_le (fuel : Nat) (s : LexState) :
    s.pos ≤ (skip_line_comment src fuel s).pos := by
  induction fuel generalizing s with
  | zero => exact le_refl _
  | succ n ih =>
    rw [skip_line_comment]
    split
    · exact le_trans (advance_pos_le src s) (ih _)
    · exact le_refl _

theorem skip_block_comment_loop_pos_le (fuel depth : Nat) (s : LexState) :
    s.pos ≤ (skip_block_comment_loop src fuel depth s).2.pos := by
  induction fuel generalizing depth s with
  | zero => exact le_refl _
  | succ n ih =>
    rw [skip_block_comment_loop]
    repeat' split
    all_goals first
      | exact le_refl _
      | exact le_trans (advance_pos_le src s) (ih _ _)
      | exact le_trans (le_trans (advance_pos_le src s) (advance_pos_le src _)) (ih _ _)

theorem skip_block_comment_pos_le (s : LexState) :
    s.pos ≤ (skip_block_comment src fname s).pos := by
  unfold skip_block_comment
  dsimp only
  have h1 := advance_pos_le src s
  have h2 := advance_pos_le src (advance src s).2
  have h3 := skip_block_comment_loop_pos_le src (src.length + 1) 1
    (advance src (advance src s).2).2
  split
  · rw [add_error_pos]
    omega
  · omega

theorem skip_whitespace_pos_le (fuel : Nat) (s : LexState) :
    s.pos ≤ (skip_whitespace src fname fuel s).pos := by
  induction fuel generalizing s with
  | zero => exact le_refl _
  | succ n ih =>
    rw [skip_whitespace]
    repeat' split
    all_goals first
      | exact le_refl _
      | exact le_trans (advance_pos_le src s) (ih _)
      | exact le_trans (skip_line_comment_pos_le src (src.length + 1) s) (ih _)
      | exact le_trans (skip_block_comment_pos_le src fname s) (ih _)

theorem scan_identifier_pos_le (s : LexState) :
    s.pos ≤ (scan_identifier src fname s).2.pos := by
  unfold scan_identifier
  dsimp only
  split <;> exact advance_while_pos_le src _ _ _

theorem scan_number_base_pos_le (start : Nat) (s : LexState) :
    s.pos ≤ (scan_number_base src start s).pos := by
  unfold scan_number_base
  split_ifs
  all_goals first
    | exact le_trans (advance_pos_le src _) (advance_while_pos_le src _ _ _)
    | omega

theorem scan_number_frac_pos_le (s : LexState) :
    s.pos ≤ (scan_number_frac src s).2.pos := by
  unfold scan_number_frac
  split
  · exact le_trans (advance_pos_le src _) (advance_while_pos_le src _ _ _)
  · exact le_refl _

theorem scan_number_exp_pos_le (r : Bool × LexState) :
    r.2.pos ≤ (scan_number_exp src r).2.pos := by
  unfold scan_number_exp
  split_ifs
  all_goals
    repeat first
      | refine le_trans ?_ (advance_while_pos_le src _ _ _)
      | refine le_trans ?_ (advance_pos_le src _)
  all_goals omega

theorem scan_number_suffix_pos_le (s : LexState) :
    s.pos ≤ (scan_number_suffix src s).pos := by
  unfold scan_number_suffix
  split
  · exact advance_while_pos_le src _ _ _
  · omega

theorem scan_number_pos_le (s : LexState) :
    s.pos ≤ (scan_number src fname s).2.pos := by
  unfold scan_number
  dsimp only
  exact le_trans (scan_number_base_pos_le src (s.pos - 1) s)
    (le_trans (advance_while_pos_le src is_digit (src.length + 1) _)
      (le_trans (scan_number_frac_pos_le src _)
        (le_trans (scan_number_exp_pos_le src _)
          (scan_number_suffix_pos_le src _))))

theorem scan_string_loop_pos_le (fuel : Nat) (s : LexState) (value : String) :
    s.pos ≤ (scan_string_loop src fname fuel s value).1.pos := by
  induction fuel generalizing s value with
  | zero => exact le_refl _
  | succ n ih =>
    rw [scan_string_loop]
    repeat' split
    all_goals first
      | exact le_refl _
      | exact advance_pos_le src _
      | exact le_trans (advance_pos_le src s) (ih _ _)
      | exact le_trans (le_trans (advance_pos_le src s) (advance_pos_le src _)) (ih _ _)
      | exact le_trans (le_trans (advance_pos_le src s) (advance_pos_le src _))
          (le_trans (le_of_eq (add_error_pos fname _ _).symm) (ih _ _))

theorem scan_string_pos_le (s : LexState) :
    s.pos ≤ (scan_string src fname s).2.pos := by
  unfold scan_string
  dsimp only
  have h1 := scan_string_loop_pos_le src fname (src.length + 1) s ""
  split
  · rw [make_error_token_pos]
    exact h1
  · exact le_trans h1 (advance_pos_le src _)

theorem scan_char_value_pos_le (s : LexState) :
    s.pos ≤ (scan_char_value src fname s).2.pos := by
  unfold scan_char_value
  split_ifs
  all_goals try rw [add_error_pos]
  all_goals first
    | exact advance_pos_le src _
    | exact le_trans (advance_pos_le src _) (advance_pos_le src _)

theorem scan_char_pos_le (s : LexState) :
    s.pos ≤ (scan_char src fname s).2.pos := by
  unfold scan_char
  dsimp only
  split
  · rw [make_error_token_pos]
  · have hv := scan_char_value_pos_le src fname s
    rcases hsv : scan_char_value src fname s with ⟨vo, s1⟩
    rw [hsv] at hv
    dsimp only at hv
    cases vo with
    | none =>
      dsimp only
      rw [make_error_token_pos]
      exact hv
    | some v =>
      dsimp only
      split
      · rw [make_error_token_pos]
        exact hv
      · dsimp only
        exact le_trans hv (advance_pos_le src s1)

theorem punct_token_pos_le (c : Char) (s1 : LexState) :
    s1.pos ≤ (punct_token src fname c s1).2.pos := by
  unfold punct_token
  repeat' split
  all_goals
    first
      | (rw [make_error_token_pos]; omega)
      | (rw [make_error_token_pos])
      | ((repeat first
          | refine le_trans ?_ (match_ch_pos src _ _)
          | refine le_trans ?_ (scan_string_pos_le src fname _)
          | refine le_trans ?_ (scan_char_pos_le src fname _));
         first
          | omega
          | (dsimp only; omega))

/-- Progress: a token other than END_OF_FILE is produced only strictly inside
the buffer and advances the lexer. -/
theorem next_token_progress (s : LexState) :
    (next_token src fname s).1.type = .endOfFile ∨
      (s.pos < (next_token src fname s).2.pos ∧ s.pos < src.length) := by
  unfold next_token
  have hws := skip_whitespace_pos_le src fname (src.length + 1) s
  set s0 := skip_whitespace src fname (src.length + 1) s with hs0
  by_cases hend : src.length ≤ s0.pos
  · rw [if_pos hend]
    left
    rfl
  · rw [if_neg hend]
    have ha := advance_pos src s0
    rw [if_neg hend] at ha
    right
    refine ⟨?_, by omega⟩
    have hm1 := scan_identifier_pos_le src fname (advance src s0).2
    have hm2 := scan_number_pos_le src fname (advance src s0).2
    have hm3 := punct_token_pos_le src fname (advance src s0).1 (advance src s0).2
    split_ifs <;> omega

end LexerTheorems

section LocationTheorems

variable (src : List Char) (fname : String)

theorem scan_identifier_loc (s : LexState) :
    (scan_identifier src fname s).1.location =
      current_location fname (scan_identifier src fname s).2 := by
  unfold scan_identifier
  dsimp only
  split <;> rfl

theorem scan_number_loc (s : LexState) :
    (scan_number src fname s).1.location =
      current_location fname (scan_number src fname s).2 := rfl

theorem scan_string_loc (s : LexState) :
    (scan_string src fname s).1.location =
      current_location fname (scan_string src fname s).2 := by
  unfold scan_string
  dsimp only
  split <;> rfl

theorem scan_char_loc (s : LexState) :
    (scan_char src fname s).1.location =
      current_location fname (scan_char src fname s).2 := by
  unfold scan_char
  dsimp only
  repeat' split
  all_goals rfl

theorem punct_token_loc (c : Char) (s1 : LexState) :
    (punct_token src fname c s1).1.location =
      current_location fname (punct_token src fname c s1).2 := by
  unfold punct_token
  repeat' split
  all_goals first
    | rfl
    | exact scan_string_loc src fname _
    | exact scan_char_loc src fname _

end LocationTheorems

/-- The terminator shape of the token stream, by induction on the iteration
budget: with enough budget left for the remaining bytes, `tokenize_all`
returns a stream of the form `init ++ [last]` where `last` is an END_OF_FILE
or ERROR token and no token of `init` is of either kind. -/
theorem tokenize_all_shape (src : List Char) (fname : String) (fuel : Nat)
    (s : LexState) (hf : src.length - s.pos < fuel) :
    ∃ init last st,
      tokenize_all src fname fuel s = (init ++ [last], st) ∧
      (last.type = .endOfFile ∨ last.type = .errorTok) ∧
      ∀ t ∈ init, ¬ t.type = .endOfFile ∧ ¬ t.type = .errorTok := by
  induction fuel generalizing s with
  | zero => omega
  | succ n ih =>
    rw [tokenize_all]
    by_cases hstop : (next_token src fname s).1.type = .endOfFile ∨
        (next_token src fname s).1.type = .errorTok
    · rw [if_pos hstop]
      refine ⟨[], (next_token src fname s).1, (next_token src fname s).2, rfl, hstop, ?_⟩
      intro t ht
      cases ht
    · rw [if_neg hstop]
      push_neg at hstop
      rcases next_token_progress src fname s with h | h
      · exact absurd h hstop.1
      · have hf2 : src.length - (next_token src fname s).2.pos < n := by omega
        rcases ih _ hf2 with ⟨init, last, st, heq, hlast, hinit⟩
        refine ⟨(next_token src fname s).1 :: init, last, st, ?_, hlast, ?_⟩
        · rw [heq]
          rfl
        · intro t ht
          rcases List.mem_cons.mp ht with h0 | h0
          · rw [h0]
            exact ⟨hstop.1, hstop.2⟩
          · exact hinit t h0

/-- One failing step of Parser::parse_item on the stray-semicolon stream: no
keyword matches, "Expected item declaration" is recorded at the current
token, a null item is returned and the position does not move. -/
theorem parse_item_stray_semicolon (m : Nat) (errs : List String) :
    parse_item c10_tokens (m + 1) ⟨0, errs⟩ =
      .ok none ⟨0, errs ++ ["t.apex:1:2: error: Expected item declaration"]⟩ := by
  have hv : parse_visibility c10_tokens ⟨0, errs⟩ = (.privateV, (⟨0, errs⟩ : PState)) := rfl
  have h1 : pmatch c10_tokens [.kwFn] ⟨0, errs⟩ = (false, (⟨0, errs⟩ : PState)) := rfl
  have h2 : pmatch c10_tokens [.kwStruct] ⟨0, errs⟩ = (false, (⟨0, errs⟩ : PState)) := rfl
  have h3 : pmatch c10_tokens [.kwEnum] ⟨0, errs⟩ = (false, (⟨0, errs⟩ : PState)) := rfl
  have h4 : pmatch c10_tokens [.kwTrait] ⟨0, errs⟩ = (false, (⟨0, errs⟩ : PState)) := rfl
  have h5 : pmatch c10_tokens [.kwImpl] ⟨0, errs⟩ = (false, (⟨0, errs⟩ : PState)) := rfl
  have h6 : pmatch c10_tokens [.kwType] ⟨0, errs⟩ = (false, (⟨0, errs⟩ : PState)) := rfl
  have h7 : pmatch c10_tokens [.kwMod] ⟨0, errs⟩ = (false, (⟨0, errs⟩ : PState)) := rfl
  have h8 : pmatch c10_tokens [.kwImport] ⟨0, errs⟩ = (false, (⟨0, errs⟩ : PState)) := rfl
  have h9 : pmatch c10_tokens [.kwExtern] ⟨0, errs⟩ = (false, (⟨0, errs⟩ : PState)) := rfl
  have hstr : "t.apex" ++ ":" ++ toString (1 : Nat) ++ ":" ++ toString (2 : Nat) ++
      ": error: " ++ "Expected item declaration" =
      "t.apex:1:2: error: Expected item declaration" := by decide
  have hp : perror c10_tokens "Expected item declaration" ⟨0, errs⟩ =
      (⟨0, errs ++ ["t.apex:1:2: error: Expected item declaration"]⟩ : PState) := by
    show (⟨0, errs ++ ["t.apex" ++ ":" ++ toString (1 : Nat) ++ ":" ++ toString (2 : Nat) ++
      ": error: " ++ "Expected item declaration"]⟩ : PState) =
      (⟨0, errs ++ ["t.apex:1:2: error: Expected item declaration"]⟩ : PState)
    rw [hstr]
  rw [parse_item]
  simp only [hv, h1, h2, h3, h4, h5, h6, h7, h8, h9, hp, Bool.false_eq_true, if_false,
    ite_false]

/-- The parse_module loop re-runs parse_item at the unchanged position and
therefore exhausts any iteration budget on the stray-semicolon stream. -/
theorem parse_module_loop_stray_semicolon (fuel : Nat) (items : List AItem)
    (errs : List String) :
    parse_module_loop c10_tokens fuel items ⟨0, errs⟩ = .fuelOut := by
  induction fuel generalizing items errs with
  | zero => rfl
  | succ n ih =>
    cases n with
    | zero => rfl
    | succ m =>
      have h1 : parse_module_loop c10_tokens (m + 1 + 1) items ⟨0, errs⟩ =
          parse_module_loop c10_tokens (m + 1) (items ++ [])
            ⟨0, errs ++ ["t.apex:1:2: error: Expected item declaration"]⟩ := by
        rw [parse_module_loop, parse_item_stray_semicolon]
        rfl
      rw [h1]
      exact ih _ _

/-! ## The claims -/

/-- C1 (code_bug): on the input `fn id(x: i32) -> i32 \x7b x \x7d` the parser
does return one Function item named "id" with one parameter "x", but — because
Parser::parse_function only checks for the opening brace without consuming
it — the body is a block whose single statement is the doubly-nested real
block carrying the tail identifier `x`, the body's own tail expression is
null, and the spurious diagnostic "Expected '\x7d'" is recorded; the driver
therefore exits before lowering, against the claimed end-to-end pipeline. -/
theorem c1_identity_function_parse_diverges :
    parse_outcome (apexParse c1_source) = "ok" ∧
    (parsed_items (apexParse c1_source)).map AItem.name = ["id"] ∧
    c1_item.kind = .function ∧
    c1_item.params.map FunctionParam.name = ["x"] ∧
    c1_body_obs c1_item.body = some ("x", false, 0) ∧
    parse_errs (apexParse c1_source) = ["t.apex:1:27: error: Expected '\x7d'"] := by
  decide

/-- C2 (code_bug): in `if c \x7b a \x7d ...` the condition's identifier
followed by `\x7b` is parsed as a struct literal (path ["c"]), so the claimed
if-expression shape never arises: the C2 input accumulates five cascading
diagnostics and ends in the parse_statement null-pointer dereference
(modelled as `crash`); the claimed conditional-branch/φ lowering is never
reached. -/
theorem c2_if_expression_misparse :
    struct_lit_path (parsed_expr (apexParseExpr "c \x7b a \x7d")) = some ["c"] ∧
    parse_outcome (apexParse c2_source) = "crash" ∧
    parse_errs (apexParse c2_source) =
      ["t.apex:1:52: error: Expected ':' after field name",
       "t.apex:1:52: error: Expected expression",
       "t.apex:1:57: error: Expected '\x7b' after if condition",
       "t.apex:1:57: error: Expected expression",
       "t.apex:1:57: error: Expected expression"] := by
  decide

/-- C3 (code_bug): Parser::parse_pattern_primary has no case for the `mut`
keyword, so `let mut y` fails with "Expected pattern" and a null pattern; on
the full C3 input the diagnostics cascade and parsing ends in the
parse_statement null-pointer dereference (modelled as `crash`); no Let
statement with a mutable identifier pattern is ever built. -/
theorem c3_let_mut_unsupported :
    pat_is_null (apexParsePattern "mut y") = true ∧
    parse_errs (apexParsePattern "mut y") = ["t.apex:1:4: error: Expected pattern"] ∧
    parse_outcome (apexParse c3_source) = "crash" ∧
    parse_errs (apexParse c3_source) =
      ["t.apex:1:32: error: Expected pattern",
       "t.apex:1:32: error: Expected ';' after let statement",
       "t.apex:1:32: error: Expected expression",
       "t.apex:1:32: error: Expected expression"] := by
  decide

/-- C4 counterexample: the parsed module `fn f() \x7b missing = 1; \x7d`
assigns to the undefined identifier `missing` yet the resolver reports no
error at all, while the plain read in `fn g() \x7b missing; \x7d` produces
the one Undefined-identifier diagnostic. -/
theorem c4_assignment_lhs_unresolved_cex :
    sema_errors_of c4_assign_source = some [] ∧
    sema_errors_of c4_bare_source =
      some ["t.apex:1:17: error: Undefined identifier 'missing'"] := by
  decide

/-- C4 (corrected): an Identifier expression the resolver visits either
resolves in the scope chain (state unchanged) or appends exactly one
Undefined-identifier diagnostic at its location; but the left operand of an
assignment or compound assignment is never visited — analyze_expr analyzes
only the right side there — so an undefined identifier on an assignment's
left side yields no diagnostic, against the claim's parenthetical. -/
theorem c4_identifier_resolution_amended :
    (∀ (st : SemaState) (n : String) (loc : SourceLocation),
        analyze_expr st (.identE (some n) loc) = (resolve_name n loc st).2) ∧
    (∀ (st : SemaState) (n : String) (loc : SourceLocation) (sym : Symbol),
        scope_lookup st.scopes n = some sym → (resolve_name n loc st).2 = st) ∧
    (∀ (st : SemaState) (n : String) (loc : SourceLocation),
        scope_lookup st.scopes n = none →
          (resolve_name n loc st).2.errors =
            st.errors ++ [loc.filename ++ ":" ++ toString loc.line ++ ":" ++
              toString loc.column ++ ": error: " ++
              ("Undefined identifier '" ++ n ++ "'")]) ∧
    (∀ (st : SemaState) (op : BinaryOp) (left right : Option AExpr)
        (loc : SourceLocation),
        is_sema_assign_op op = true →
          analyze_expr st (.binary op left right loc) = analyze_opt_expr st right) := by
  refine ⟨?_, ?_, ?_, ?_⟩
  · intro st n loc
    rfl
  · intro st n loc sym h
    unfold resolve_name
    rw [h]
  · intro st n loc h
    unfold resolve_name
    rw [h]
    rfl
  · intro st op left right loc h
    simp only [analyze_expr]
    rw [if_pos h]

/-- C5 (confirmed): for every source string the token stream of tokenize_all
ends in exactly one END_OF_FILE or ERROR token — the last token is of one of
those two kinds and every earlier token is of neither kind (and the embedded
tokenize_all is a total function, so the loop terminates on every input). -/
theorem c5_tokenize_all_stream_shape :
    ∀ (source fname : String),
      ∃ (init : List Token) (last : Token),
        (lex_source source fname).1 = init ++ [last] ∧
        (last.type = .endOfFile ∨ last.type = .errorTok) ∧
        ∀ t ∈ init, ¬ t.type = .endOfFile ∧ ¬ t.type = .errorTok := by
  intro source fname
  rcases tokenize_all_shape source.data fname (source.data.length + 1) initLexState
      (Nat.lt_succ_of_le (Nat.sub_le _ _)) with ⟨init, last, st, heq, hlast, hinit⟩
  refine ⟨init, last, ?_, hlast, hinit⟩
  rw [lex_source, heq]

/-- C6 counterexample: lexing "ab" yields an identifier token whose lexeme is
"ab" but whose stamped byte offset is 2 — the position after the lexeme — not
the first byte (offset 0) of the lexeme. -/
theorem c6_location_post_lexeme_cex :
    ((apexToks "ab").headD dummyToken).type = .identifier ∧
    ((apexToks "ab").headD dummyToken).lexeme = "ab" ∧
    ((apexToks "ab").headD dummyToken).location.offset = 2 ∧
    ¬ ((apexToks "ab").headD dummyToken).location.offset = 0 := by
  decide

/-- C6 (corrected): every token next_token returns is stamped with the
lexer's CURRENT location at the moment the token object is built — the
line/column/offset just after the token's lexeme (Lexer::make_token calls
current_location() after scanning) — not the first byte of the lexeme. -/
theorem c6_token_location_amended (src : List Char) (fname : String) (s : LexState) :
    (next_token src fname s).1.location =
      current_location fname (next_token src fname s).2 := by
  unfold next_token
  split_ifs
  · rfl
  · exact scan_identifier_loc src fname _
  · exact scan_number_loc src fname _
  · exact punct_token_loc src fname _ _

/-- C7 counterexample: the token for "0x1F_i32" is a single INTEGER_LITERAL
with the full lexeme, but its value field is empty — the lexer never decodes
numeric literals — so it does not hold the integer 31. -/
theorem c7_no_decoded_value_cex :
    ((apexToks "0x1F_i32").headD dummyToken).type = .integerLiteral ∧
    ((apexToks "0x1F_i32").headD dummyToken).lexeme = "0x1F_i32" ∧
    ((apexToks "0x1F_i32").headD dummyToken).value = none ∧
    ¬ ((apexToks "0x1F_i32").headD dummyToken).value = some (.intV 31) := by
  decide

/-- C7 (corrected): lexing "0x1F_i32" produces exactly one INTEGER_LITERAL
token with the full lexeme "0x1F_i32" (suffix included) followed by
END_OF_FILE; the token's value field is `none` — no decoded value is stored
(and the stamped location is the post-lexeme position). -/
theorem c7_hex_literal_amended :
    apexToks "0x1F_i32" =
      [{ type := .integerLiteral, lexeme := "0x1F_i32",
         location := ⟨"t.apex", 1, 9, 8⟩, value := none },
       { type := .endOfFile, lexeme := "",
         location := ⟨"t.apex", 1, 9, 8⟩, value := none }] := by
  decide

/-- C8 counterexample: the tail of the parsed block `\x7b 1 \x7d` is a
literal expression whose stored value is the placeholder 0, not 1 (the parser
never decodes literal tokens). -/
theorem c8_tail_literal_value_cex :
    block_tail_lit (parsed_expr (apexParseExpr "\x7b 1 \x7d")) = some (some (.intV 0)) ∧
    ¬ block_tail_lit (parsed_expr (apexParseExpr "\x7b 1 \x7d")) = some (some (.intV 1)) := by
  decide

/-- C8 (corrected): `\x7b 1 \x7d` parses to a block with no statements and a
literal tail expression, and `\x7b 1; \x7d` to a block with one
expression-statement (semicolon flag set) and no tail — exactly the claimed
shapes — but the literal value stored in both is the placeholder 0, not
the decoded 1. -/
theorem c8_block_parsing_amended :
    parse_outcome (apexParseExpr "\x7b 1 \x7d") = "ok" ∧
    block_stmt_count (parsed_expr (apexParseExpr "\x7b 1 \x7d")) = some 0 ∧
    block_tail_lit (parsed_expr (apexParseExpr "\x7b 1 \x7d")) = some (some (.intV 0)) ∧
    parse_errs (apexParseExpr "\x7b 1 \x7d") = [] ∧
    parse_outcome (apexParseExpr "\x7b 1; \x7d") = "ok" ∧
    block_stmt_count (parsed_expr (apexParseExpr "\x7b 1; \x7d")) = some 1 ∧
    block_has_tail (parsed_expr (apexParseExpr "\x7b 1; \x7d")) = some false ∧
    block_first_stmt_lit (parsed_expr (apexParseExpr "\x7b 1; \x7d")) =
      some (some (.intV 0), true) ∧
    parse_errs (apexParseExpr "\x7b 1; \x7d") = [] := by
  decide

/-- C9 (code_bug): an unknown command-line flag does not exit with code 1:
parse_args routes it to the help branch, so the driver prints usage and exits
0 (the early-exit decision of main()), with no input file recorded. -/
theorem c9_unknown_flag_exit_code :
    (parse_args c9_args).help = true ∧
    (parse_args c9_args).inputFile = "" ∧
    main_early_exit c9_args = some 0 := by
  decide

/-- C10 (code_bug): on the token stream of the source ";" — a stray top-level
token no item can start — Parser::parse_module does NOT terminate: parse_item
reports "Expected item declaration" without consuming a token and the module
loop retries at the same position, so every iteration budget is exhausted. -/
theorem c10_parse_module_diverges :
    apexToks ";" = c10_tokens ∧
    ∀ (fuel : Nat), parse_module_top c10_tokens fuel ⟨0, []⟩ = .fuelOut := by
  refine ⟨by decide, fun fuel => ?_⟩
  cases fuel with
  | zero => rfl
  | succ n =>
    have h1 : parse_module_top c10_tokens (n + 1) ⟨0, []⟩ =
        pbind (parse_module_loop c10_tokens n [] ⟨0, []⟩)
          (fun items st2 =>
            .ok ⟨"<main>", items, (ppeek c10_tokens ⟨0, []⟩).location⟩ st2) := by
      rw [parse_module_top]
    rw [h1, parse_module_loop_stray_semicolon n [] []]
    rfl
